import Mathlib

/-!
# Conquest: pawn movement component, function library helpers, game-state timer queries

A shallow embedding of

* `Source/Conquest/Private/Components/CSKPawnMovement.cpp` (class `UCSKPawnMovement`),
* `Source/Conquest/Private/ConquestFunctionLibrary.cpp` (class `UConquestFunctionLibrary`),
* the inline queries of `Source/Conquest/Public/Game/CSKGameState.h` (class `ACSKGameState`),
  and the tick timer it declares, whose bodies are not among the sources and are modelled
  from the specification.

Conventions of the embedding:

* `float` is read as an exact rational (`ℚ`). Division in `ℚ` agrees with the source wherever
  the divisor is non-zero; no statement below relies on a quotient with divisor zero.
* `int32` is read as an `Int` reduced into the signed 32-bit range by `wrap32` after each
  addition.
* A pointer is an `Option`: `none` is `nullptr`. An `AActor*` that is stored is kept as the
  identity (`Id`) of the actor it points to.
* A member function that mutates the object is a function from the object state to the new
  object state; a function that can hit a failed `check` or go through a null pointer
  returns `Option`/`Except`.
* Engine routines that are not part of this repository and whose value is a matter of
  floating-point geometry are fields of `Engine`; the theorems hold for every `Engine`.
-/

namespace Conquest

/-! ## Engine types -/

/-- Engine vector `FVector` with exact components. -/
structure FVector where
  X : ℚ
  Y : ℚ
  Z : ℚ
deriving DecidableEq

namespace FVector

/-- The constant `FVector::ZeroVector`. -/
def ZeroVector : FVector := ⟨0, 0, 0⟩

/-- Component-wise `operator+`. -/
def add (a b : FVector) : FVector := ⟨a.X + b.X, a.Y + b.Y, a.Z + b.Z⟩

/-- Component-wise `operator-`. -/
def sub (a b : FVector) : FVector := ⟨a.X - b.X, a.Y - b.Y, a.Z - b.Z⟩

/-- Scaling `operator*` by a scalar. -/
def scale (a : FVector) (k : ℚ) : FVector := ⟨a.X * k, a.Y * k, a.Z * k⟩

/-- Scaling `operator/` by a scalar. -/
def divide (a : FVector) (k : ℚ) : FVector := ⟨a.X / k, a.Y / k, a.Z / k⟩

end FVector

/-- Engine `FMath::Clamp(X, Min, Max)`: `X < Min ? Min : X < Max ? X : Max`. -/
def Clamp (X Min Max : ℚ) : ℚ := if X < Min then Min else if X < Max then X else Max

/-- Engine `FMath::Lerp(A, B, Alpha)`: `A + Alpha * (B - A)`. -/
def Lerp (A B : FVector) (Alpha : ℚ) : FVector := A.add ((B.sub A).scale Alpha)

/-- Engine enum `EComponentMobility`. -/
inductive EComponentMobility where
  | Static
  | Stationary
  | Movable
deriving DecidableEq

/-- Engine `USceneComponent`, reduced to the field that `TrackActor` reads. -/
structure USceneComponent where
  Mobility : EComponentMobility
deriving DecidableEq

/-- What an `AActor*` argument points to: the identity of the actor and the result of
`GetRootComponent()` at the time of the call. -/
structure AActor where
  Id : Nat
  RootComponent : Option USceneComponent
deriving DecidableEq

/-- The owning pawn as the movement component sees it through `PawnOwner`:
the pending movement input accumulated by the pawn, the answer of `APawn::IsMoveInputIgnored`,
whether `Cast<ACSKPawn>` succeeds on it, and how many times its delegate
`OnTravelTaskFinished` has been broadcast. -/
structure APawn where
  ControlInputVector : FVector
  bMoveInputIgnored : Bool
  bIsCSKPawn : Bool
  OnTravelTaskFinishedBroadcasts : Nat
deriving DecidableEq

/-- Engine routines used by the component whose values are floating-point geometry or world
lookups outside this repository. -/
structure Engine where
  /-- The easing `FMath::InterpSinInOut(A, B, Alpha)`. -/
  InterpSinInOut : ℚ → ℚ → ℚ → ℚ
  /-- The length `FVector::Size`. -/
  Size : FVector → ℚ
  /-- The direction `FVector::GetSafeNormal`. -/
  GetSafeNormal : FVector → FVector
  /-- The velocity computed by `UFloatingPawnMovement::ApplyControlInputToVelocity` from the
  current velocity, the pending input, `MaxSpeed` and `DeltaTime`. -/
  FloatingVelocity : FVector → FVector → ℚ → ℚ → FVector
  /-- The lookup `AActor::GetActorLocation` of the actor with the given identity. -/
  GetActorLocation : Nat → FVector

/-! ## `UCSKPawnMovement` -/

/-- State of a `UCSKPawnMovement` component: its own members (first seven fields, as used in
`CSKPawnMovement.cpp`) and the inherited state it touches. The updated component is taken to
be set, `ComponentLocation` is `UpdatedComponent->GetComponentLocation()`. -/
structure UCSKPawnMovement where
  bIsTravelling : Bool
  bCanCacelTravel : Bool
  TravelFrom : FVector
  TravelGoal : FVector
  TravelToTime : ℚ
  TravelElapsedTime : ℚ
  TrackedActor : Option Nat
  Velocity : FVector
  MaxSpeed : ℚ
  ComponentLocation : FVector
  PawnOwner : Option APawn
  TickPrerequisiteActors : List Nat
deriving DecidableEq

/-- The constructor `UCSKPawnMovement::UCSKPawnMovement()`: the three assignments of the
source on top of zero-initialised members, with the inherited state given. -/
def UCSKPawnMovement.Construct (MaxSpeed : ℚ) (ComponentLocation : FVector)
    (PawnOwner : Option APawn) : UCSKPawnMovement :=
  { bIsTravelling := false
    bCanCacelTravel := false
    TravelFrom := FVector.ZeroVector
    TravelGoal := FVector.ZeroVector
    TravelToTime := 2
    TravelElapsedTime := 0
    TrackedActor := none
    Velocity := FVector.ZeroVector
    MaxSpeed := MaxSpeed
    ComponentLocation := ComponentLocation
    PawnOwner := PawnOwner
    TickPrerequisiteActors := [] }

/-- Modelled from the spec: the accessor `IsTrackingActor` is declared inline in
`CSKPawnMovement.h`, which is not among the sources. The spec describes tracking as being
locked onto a target, and `UpdateTrackTaskVelocity` asserts `TrackedActor` right after the
dispatch on `IsTrackingActor()`, so it is read as `TrackedActor != nullptr`. -/
def IsTrackingActor (s : UCSKPawnMovement) : Bool := s.TrackedActor.isSome

/-- Engine `UPawnMovementComponent::GetPendingInputVector`: the pending input of the owning
pawn, zero without an owner. -/
def GetPendingInputVector (s : UCSKPawnMovement) : FVector :=
  match s.PawnOwner with
  | some p => p.ControlInputVector
  | none => FVector.ZeroVector

/-- Engine `Super::AddInputVector`: forwards to the owning pawn, which accumulates the vector
when forced or when it does not ignore move input. -/
def Super_AddInputVector (s : UCSKPawnMovement) (WorldVector : FVector) (bForce : Bool) :
    UCSKPawnMovement :=
  match s.PawnOwner with
  | some p =>
    if bForce || !p.bMoveInputIgnored then
      { s with PawnOwner := some { p with ControlInputVector := p.ControlInputVector.add WorldVector } }
    else s
  | none => s

/-- Engine `Super::ConsumeInputVector`: returns the pending input of the owning pawn and
resets it to zero; zero without an owner. -/
def Super_ConsumeInputVector (s : UCSKPawnMovement) : FVector × UCSKPawnMovement :=
  match s.PawnOwner with
  | some p =>
    (p.ControlInputVector, { s with PawnOwner := some { p with ControlInputVector := FVector.ZeroVector } })
  | none => (FVector.ZeroVector, s)

/-- Engine `Super::IsMoveInputIgnored`: the answer of the owning pawn, `true` without one. -/
def Super_IsMoveInputIgnored (s : UCSKPawnMovement) : Bool :=
  match s.PawnOwner with
  | some p => p.bMoveInputIgnored
  | none => true

/-- Engine `RemoveTickPrerequisiteActor`. -/
def RemoveTickPrerequisiteActor (s : UCSKPawnMovement) (a : Nat) : UCSKPawnMovement :=
  { s with TickPrerequisiteActors := s.TickPrerequisiteActors.filter (fun b => b ≠ a) }

/-- Engine `AddTickPrerequisiteActor`: the component and the actor are taken to be able to
tick, so the prerequisite is registered; the prerequisite array holds each actor once. -/
def AddTickPrerequisiteActor (s : UCSKPawnMovement) (a : Nat) : UCSKPawnMovement :=
  if a ∈ s.TickPrerequisiteActors then s
  else { s with TickPrerequisiteActors := s.TickPrerequisiteActors ++ [a] }

/-- Source `UCSKPawnMovement::AddInputVector`. -/
def AddInputVector (s : UCSKPawnMovement) (WorldVector : FVector) (bForce : Bool) :
    UCSKPawnMovement :=
  let bCancelTravelTask := s.bIsTravelling && !s.bCanCacelTravel
  if !IsTrackingActor s && !bCancelTravelTask then
    Super_AddInputVector s WorldVector bForce
  else s

/-- Source `UCSKPawnMovement::ConsumeInputVector`: the returned vector and the new state. -/
def ConsumeInputVector (s : UCSKPawnMovement) : FVector × UCSKPawnMovement :=
  let r := Super_ConsumeInputVector s
  let InputVector := r.1
  if InputVector ≠ FVector.ZeroVector then
    (InputVector, { r.2 with bIsTravelling := false })
  else (InputVector, r.2)

/-- Source `UCSKPawnMovement::IsMoveInputIgnored`. -/
def IsMoveInputIgnored (s : UCSKPawnMovement) : Bool :=
  let bResult := Super_IsMoveInputIgnored s
  if !bResult then
    let bCancelTravelTask := s.bIsTravelling && !s.bCanCacelTravel
    IsTrackingActor s || bCancelTravelTask
  else bResult

/-- Source `UCSKPawnMovement::TravelToLocation`. -/
def TravelToLocation (s : UCSKPawnMovement) (Location : FVector) (TravelTime : ℚ)
    (bCancellable : Bool) : UCSKPawnMovement :=
  if IsTrackingActor s then s
  else if !s.bIsTravelling || s.bCanCacelTravel then
    { s with
      bIsTravelling := true
      bCanCacelTravel := bCancellable
      TravelFrom := s.ComponentLocation
      TravelGoal := Location
      TravelToTime := TravelTime
      TravelElapsedTime := 0 }
  else s

/-- Source `UCSKPawnMovement::TrackActor`. -/
def TrackActor (s : UCSKPawnMovement) (ActorToTrack : Option AActor) (bIgnoreIfStatic : Bool) :
    UCSKPawnMovement :=
  let s1 :=
    if s.TrackedActor ≠ ActorToTrack.map AActor.Id then
      match s.TrackedActor with
      | some t => { RemoveTickPrerequisiteActor s t with Velocity := FVector.ZeroVector }
      | none => s
    else s
  let s2 := { s1 with TrackedActor := none }
  match ActorToTrack with
  | some a =>
    match a.RootComponent with
    | none => s2
    | some Root =>
      if bIgnoreIfStatic && decide (Root.Mobility = EComponentMobility.Static) then s2
      else
        let s3 := { s2 with TrackedActor := some a.Id }
        let s4 := AddTickPrerequisiteActor s3 a.Id
        { s4 with bIsTravelling := false }
  | none => s2

/-- Source `UCSKPawnMovement::StopTrackingActor`; the default of `bIgnoreIfStatic` is declared
in the header and has no influence on a null argument, so it is a parameter here. -/
def StopTrackingActor (s : UCSKPawnMovement) (bIgnoreIfStaticDefault : Bool) : UCSKPawnMovement :=
  TrackActor s none bIgnoreIfStaticDefault

/-- The broadcast `Pawn->OnTravelTaskFinished.Broadcast(Pawn)` guarded by the cast of
`GetPawnOwner()` to `ACSKPawn`, as in `UpdateTravelTaskVelocity`. -/
def BroadcastTravelTaskFinished (s : UCSKPawnMovement) : UCSKPawnMovement :=
  match s.PawnOwner with
  | some p =>
    if p.bIsCSKPawn then
      let p1 := { p with OnTravelTaskFinishedBroadcasts := p.OnTravelTaskFinishedBroadcasts + 1 }
      { s with PawnOwner := some p1 }
    else s
  | none => s

/-- Source `UCSKPawnMovement::UpdateTravelTaskVelocity`. -/
def UpdateTravelTaskVelocity (E : Engine) (s : UCSKPawnMovement) (DeltaTime : ℚ) :
    UCSKPawnMovement :=
  let s1 := { s with
    TravelElapsedTime := Clamp (s.TravelElapsedTime + DeltaTime / s.TravelToTime) 0 1 }
  let AlphaAlongTack := E.InterpSinInOut 0 1 s1.TravelElapsedTime
  let OldLocation := s1.ComponentLocation
  let NewLocation := Lerp s1.TravelFrom s1.TravelGoal AlphaAlongTack
  let s2 := { s1 with Velocity := (NewLocation.sub OldLocation).divide DeltaTime }
  let s3 :=
    if s2.TravelElapsedTime = 1 then
      BroadcastTravelTaskFinished { s2 with bIsTravelling := false }
    else s2
  (ConsumeInputVector s3).2

/-- Source `UCSKPawnMovement::UpdateTrackTaskVelocity`; `none` is the failed
`check(TrackedActor)`. -/
def UpdateTrackTaskVelocity (E : Engine) (s : UCSKPawnMovement) (DeltaTime : ℚ) :
    Option UCSKPawnMovement :=
  match s.TrackedActor with
  | none => none
  | some t =>
    let TargetLocation := E.GetActorLocation t
    let ComponentLocation := s.ComponentLocation
    let Displacement := TargetLocation.sub ComponentLocation
    let Distance := E.Size Displacement
    let TravelDilation : ℚ := 3
    let Scale := if Distance > s.MaxSpeed / 4 then s.MaxSpeed * TravelDilation
      else Distance / DeltaTime
    let s1 := { s with Velocity := (E.GetSafeNormal Displacement).scale Scale }
    some (ConsumeInputVector s1).2

/-- Engine `Super::ApplyControlInputToVelocity` (`UFloatingPawnMovement`): recomputes the
velocity from the pending input and then calls the virtual `ConsumeInputVector`. -/
def Super_ApplyControlInputToVelocity (E : Engine) (s : UCSKPawnMovement) (DeltaTime : ℚ) :
    UCSKPawnMovement :=
  let s1 := { s with
    Velocity := E.FloatingVelocity s.Velocity (GetPendingInputVector s) s.MaxSpeed DeltaTime }
  (ConsumeInputVector s1).2

/-- Source `UCSKPawnMovement::ApplyControlInputToVelocity`. -/
def ApplyControlInputToVelocity (E : Engine) (s : UCSKPawnMovement) (DeltaTime : ℚ) :
    Option UCSKPawnMovement :=
  if IsTrackingActor s then UpdateTrackTaskVelocity E s DeltaTime
  else if s.bIsTravelling then some (UpdateTravelTaskVelocity E s DeltaTime)
  else some (Super_ApplyControlInputToVelocity E s DeltaTime)

/-- The number of `OnTravelTaskFinished` broadcasts the owning pawn has received. -/
def Broadcasts (s : UCSKPawnMovement) : Nat :=
  match s.PawnOwner with
  | some p => p.OnTravelTaskFinishedBroadcasts
  | none => 0

/-- A sequence of calls of `ApplyControlInputToVelocity`, one per `DeltaTime` of the list. -/
def RunUpdates (E : Engine) (s : UCSKPawnMovement) : List ℚ → Option UCSKPawnMovement
  | [] => some s
  | d :: ds =>
    match ApplyControlInputToVelocity E s d with
    | some s1 => RunUpdates E s1 ds
    | none => none

/-- One call made on the component between ticks or by the tick: an `AddInputVector` or a
travel update (`UpdateTravelTaskVelocity`). -/
inductive MovementInputOp where
  | AddInput (WorldVector : FVector) (bForce : Bool)
  | TravelUpdate (DeltaTime : ℚ)

/-- The effect of one `MovementInputOp` on the component. -/
def StepInputOp (E : Engine) (s : UCSKPawnMovement) : MovementInputOp → UCSKPawnMovement
  | MovementInputOp.AddInput WorldVector bForce => AddInputVector s WorldVector bForce
  | MovementInputOp.TravelUpdate DeltaTime => UpdateTravelTaskVelocity E s DeltaTime

/-- Along the calls `ops` made from state `s`, the component is travelling after every call
up to the first one that leaves the elapsed fraction at exactly 1. -/
def StaysTravellingUntilDone (E : Engine) (s : UCSKPawnMovement) : List MovementInputOp → Bool
  | [] => true
  | op :: ops =>
    decide ((StepInputOp E s op).TravelElapsedTime = 1) ||
      ((StepInputOp E s op).bIsTravelling && StaysTravellingUntilDone E (StepInputOp E s op) ops)

/-- One call of a public or virtual member of the component, with its arguments. -/
inductive MovementCall where
  | TravelToLocation (Location : FVector) (TravelTime : ℚ) (bCancellable : Bool)
  | TrackActor (ActorToTrack : Option AActor) (bIgnoreIfStatic : Bool)
  | StopTrackingActor
  | AddInputVector (WorldVector : FVector) (bForce : Bool)
  | ConsumeInputVector
  | ApplyControlInputToVelocity (DeltaTime : ℚ)

/-- The effect of one `MovementCall` on the component; `none` is the failed
`check(TrackedActor)` of `UpdateTrackTaskVelocity`. -/
def StepCall (E : Engine) (bIgnoreIfStaticDefault : Bool) (s : UCSKPawnMovement) :
    MovementCall → Option UCSKPawnMovement
  | MovementCall.TravelToLocation Location TravelTime bCancellable =>
    some (TravelToLocation s Location TravelTime bCancellable)
  | MovementCall.TrackActor ActorToTrack bIgnoreIfStatic =>
    some (TrackActor s ActorToTrack bIgnoreIfStatic)
  | MovementCall.StopTrackingActor => some (StopTrackingActor s bIgnoreIfStaticDefault)
  | MovementCall.AddInputVector WorldVector bForce => some (AddInputVector s WorldVector bForce)
  | MovementCall.ConsumeInputVector => some (ConsumeInputVector s).2
  | MovementCall.ApplyControlInputToVelocity DeltaTime => ApplyControlInputToVelocity E s DeltaTime

/-- A sequence of calls made one after the other; `none` as soon as one call fails. -/
def RunCalls (E : Engine) (bIgnoreIfStaticDefault : Bool) (s : UCSKPawnMovement) :
    List MovementCall → Option UCSKPawnMovement
  | [] => some s
  | c :: cs =>
    match StepCall E bIgnoreIfStaticDefault s c with
    | some s1 => RunCalls E bIgnoreIfStaticDefault s1 cs
    | none => none

/-! ## `ACSKGameState` (inline members of `CSKGameState.h`) -/

/-- Source enum `ECSKTimerState`. -/
inductive ECSKTimerState where
  | ActionPhase
  | QuickEffect
  | BonusSpell
  | Custom
  | None
deriving DecidableEq

/-- The members of `ACSKGameState` read by the inline queries and by the function library:
an `ABoardManager*` and an `ACSKPawn*` (kept as identities) and the timer members. -/
structure ACSKGameState where
  BoardManager : Option Nat
  LocalPlayerPawn : Option Nat
  TimerState : ECSKTimerState
  TimeRemaining : Int
  NewActionPhaseTimeRemaining : Int
  bTimerPaused : Bool
  ActionPhaseTime : Int
deriving DecidableEq

/-- Source `ACSKGameState::GetLocalPlayerPawn`. -/
def ACSKGameState.GetLocalPlayerPawn (gs : ACSKGameState) : Option Nat := gs.LocalPlayerPawn

/-- Source `ACSKGameState::IsTimerActive`. -/
def ACSKGameState.IsTimerActive (gs : ACSKGameState) : Bool :=
  decide (gs.TimerState ≠ ECSKTimerState.None)

/-- Source `ACSKGameState::IsActionPhaseTimed`. -/
def ACSKGameState.IsActionPhaseTimed (gs : ACSKGameState) : Bool :=
  decide (gs.ActionPhaseTime ≠ -1)

/-- Modelled from the spec: `DeactivateTickTimer` is declared in `CSKGameState.h` and defined
in `CSKGameState.cpp`, which is not among the sources. Spec 4.1: the deactivation "clears
state unconditionally and is idempotent"; the timer state cleared is the reason, the
remaining time and the paused mark. -/
def ACSKGameState.DeactivateTickTimer (gs : ACSKGameState) : ACSKGameState :=
  { gs with TimerState := ECSKTimerState.None, TimeRemaining := 0, bTimerPaused := false }

/-- Modelled from the spec: `ActivateTickTimer` is defined in `CSKGameState.cpp`, which is
not among the sources. Spec 4.1: the activation "starts (or restarts) a countdown; fails/no-ops
if `reason == None`"; spec 3: "activating a new timer state deactivates any previous one
first". -/
def ACSKGameState.ActivateTickTimer (gs : ACSKGameState) (InTimerState : ECSKTimerState)
    (InTime : Int) : ACSKGameState :=
  if InTimerState = ECSKTimerState.None then gs
  else { gs.DeactivateTickTimer with TimerState := InTimerState, TimeRemaining := InTime }

/-- Modelled from the spec: `HandleTickTimerFinished` is defined in `CSKGameState.cpp`, which
is not among the sources. Spec 4.1: the finished handler "deactivates the timer and dispatches
a phase-specific continuation"; the continuation dispatched (named by the timer reason) is
returned next to the new state. -/
def ACSKGameState.HandleTickTimerFinished (gs : ACSKGameState) :
    ACSKGameState × List ECSKTimerState :=
  (gs.DeactivateTickTimer, [gs.TimerState])

/-- Modelled from the spec: `TickTimer` is defined in `CSKGameState.cpp`, which is not among
the sources. Spec 4.1: a tick "decrements remaining time; reaching zero invokes" the finished
handler; "`duration == -1` denotes an infinite timer: it never auto-expires". The result is
the new state and the continuations dispatched by this tick. -/
def ACSKGameState.TickTimer (gs : ACSKGameState) : ACSKGameState × List ECSKTimerState :=
  if gs.TimeRemaining = -1 then (gs, [])
  else if gs.TimeRemaining - 1 = 0 then
    ACSKGameState.HandleTickTimerFinished { gs with TimeRemaining := gs.TimeRemaining - 1 }
  else ({ gs with TimeRemaining := gs.TimeRemaining - 1 }, [])

/-- Modelled from the spec: the periodic callback that drives `TickTimer` is set up in
`CSKGameState.cpp`, which is not among the sources. Spec 2 and 4.1: the timer drives the
periodic ticks, so there is no tick without an active timer; "a timer may be marked paused:
ticks are still scheduled but decrement is skipped while paused" (`bTimerPaused` in the
header: "skips TickTimer whenever the callback is executed"). -/
def ACSKGameState.TickTimerCallback (gs : ACSKGameState) : ACSKGameState × List ECSKTimerState :=
  if gs.IsTimerActive && !gs.bTimerPaused then gs.TickTimer else (gs, [])

/-- The state after `n` periodic callbacks and the continuations dispatched by them, in
order. -/
def ACSKGameState.RunTicks : Nat → ACSKGameState → ACSKGameState × List ECSKTimerState
  | 0, gs => (gs, [])
  | n + 1, gs =>
    ((ACSKGameState.RunTicks n gs.TickTimerCallback.1).1,
      gs.TickTimerCallback.2 ++ (ACSKGameState.RunTicks n gs.TickTimerCallback.1).2)

/-! ## `UConquestFunctionLibrary` -/

/-- Engine `FIntVector`. -/
structure FIntVector where
  X : Int
  Y : Int
  Z : Int
deriving DecidableEq

/-- What an `ATile*` points to, reduced to the two getters the library calls:
`GetGridHexValue()` and `GetActorLocation()`. The class is declared in `Board/Tile.h`, which
is not among the sources. -/
structure ATile where
  GridHexValue : FIntVector
  ActorLocation : FVector
deriving DecidableEq

/-- Modelled from the spec: `FHealthChangeReport` is declared in a header that is not among
the sources; the spec gives it as an owning entity reference and a signed integer delta
(negative is damage, positive is heal). -/
structure FHealthChangeReport where
  Owner : Option Nat
  Delta : Int
deriving DecidableEq

/-- What a `UWorld*` points to: the result of `GetGameState<ACSKGameState>()`, the actors of
class `ABoardManager` in iteration order, and the path name. -/
structure UWorld where
  GameState : Option ACSKGameState
  BoardManagers : List Nat
  PathName : String
deriving DecidableEq

/-- A world context object: the world it resolves to, if any. -/
structure UObject where
  World : Option UWorld
deriving DecidableEq

/-- Engine `GEngine->GetWorldFromContextObject(Object, EGetWorldErrorMode::LogAndReturnNull)`. -/
def GetWorldFromContextObject (WorldContextObject : Option UObject) : Option UWorld :=
  match WorldContextObject with
  | some o => o.World
  | none => none

/-- Reduction of a mathematical integer into the `int32` range (two-complement wrap). -/
def wrap32 (x : Int) : Int := (x + 2147483648) % 4294967296 - 2147483648

/-- A run-time fault of the embedded code. -/
inductive Fault where
  | NullDereference
deriving DecidableEq

/-- A line written by `UE_LOG(LogConquest, Warning, ...)` in `FindMatchBoardManager`, with
the path name that is formatted into it. -/
structure BoardManagerWarning where
  WorldPathName : String
deriving DecidableEq

/-- Source `UConquestFunctionLibrary::GetCSKGameState`. -/
def GetCSKGameState (WorldContextObject : Option UObject) : Option ACSKGameState :=
  match GetWorldFromContextObject WorldContextObject with
  | some World => World.GameState
  | none => none

/-- Source `UConquestFunctionLibrary::FindMatchBoardManager`: the returned pointer and the
warnings logged, or the fault of calling `GetPathName` through a null `World`. -/
def FindMatchBoardManager (WorldContextObject : Option UObject) (bWarnIfNotFound : Bool) :
    Except Fault (Option Nat × List BoardManagerWarning) :=
  let World := GetWorldFromContextObject WorldContextObject
  let Found : Option Nat :=
    match World with
    | some w => w.BoardManagers.head?
    | none => none
  match Found with
  | some It => Except.ok (some It, [])
  | none =>
    if bWarnIfNotFound then
      match World with
      | some w => Except.ok (none, [{ WorldPathName := w.PathName }])
      | none => Except.error Fault.NullDereference
    else Except.ok (none, [])

/-- Source `UConquestFunctionLibrary::GetLocalPlayersCSKPawn`. -/
def GetLocalPlayersCSKPawn (WorldContextObject : Option UObject) : Option Nat :=
  match GetCSKGameState WorldContextObject with
  | some GameState => GameState.GetLocalPlayerPawn
  | none => none

/-- A call `Pawn->TravelToLocation(Location, TravelTime, bCancellable)` made on a pawn. -/
structure TravelRequest where
  Pawn : Nat
  Location : FVector
  TravelTime : ℚ
  bCancellable : Bool
deriving DecidableEq

/-- Source `UConquestFunctionLibrary::MoveLocalPlayerToTile`: the function has no other
effect than the calls it makes on the local pawn, which are returned in order. -/
def MoveLocalPlayerToTile (WorldContextObject : Option UObject) (Tile : Option ATile)
    (TravelTime : ℚ) (bCancellable : Bool) : List TravelRequest :=
  match Tile with
  | some tile =>
    match GetLocalPlayersCSKPawn WorldContextObject with
    | some PlayersPawn =>
      [{ Pawn := PlayersPawn, Location := tile.ActorLocation, TravelTime := TravelTime,
         bCancellable := bCancellable }]
    | none => []
  | none => []

/-- Source `UConquestFunctionLibrary::AreTilesWithingRange`: the returned flag and the value
left in `OutDistance`. `HexDisplacement` stands for `FHexGrid::HexDisplacement`, which is
declared in a header that is not among the sources. -/
def AreTilesWithingRange (HexDisplacement : FIntVector → FIntVector → Int)
    (T1 T2 : Option ATile) (Range : Int) : Bool × Int :=
  let OutDistance : Int := -1
  match T1, T2 with
  | some t1, some t2 =>
    let OutDistance := HexDisplacement t1.GridHexValue t2.GridHexValue
    (decide (OutDistance ≤ Range), OutDistance)
  | _, _ => (false, OutDistance)

/-- Source `UConquestFunctionLibrary::AccumulateHealthReportDeltas`, with `+=` on `int32`. -/
def AccumulateHealthReportDeltas (Reports : List FHealthChangeReport) : Int :=
  Reports.foldl (fun Total Repo => wrap32 (Total + Repo.Delta)) 0

/-! ## Sample data used to instantiate the theorems -/

/-- An engine instance with linear easing, the taxicab length and no normalisation. -/
def SampleEngine : Engine :=
  { InterpSinInOut := fun A B Alpha => A + Alpha * (B - A)
    Size := fun v => |v.X| + |v.Y| + |v.Z|
    GetSafeNormal := fun v => v
    FloatingVelocity := fun v i _ _ => v.add i
    GetActorLocation := fun _ => FVector.ZeroVector }

/-- A CSK pawn with no pending input. -/
def SamplePawn : APawn :=
  { ControlInputVector := FVector.ZeroVector
    bMoveInputIgnored := false
    bIsCSKPawn := true
    OnTravelTaskFinishedBroadcasts := 0 }

/-- The freshly constructed component owned by `SamplePawn`. -/
def SampleMovement : UCSKPawnMovement :=
  UCSKPawnMovement.Construct 1200 ⟨5, 6, 7⟩ (some SamplePawn)

/-- A movable actor with identity 7. -/
def SampleActor : AActor :=
  { Id := 7, RootComponent := some { Mobility := EComponentMobility.Movable } }

/-- A static actor with identity 9. -/
def SampleStaticActor : AActor :=
  { Id := 9, RootComponent := some { Mobility := EComponentMobility.Static } }

/-- A game state with a local pawn (identity 3) and an infinite action-phase timer. -/
def SampleGameState : ACSKGameState :=
  { BoardManager := some 11
    LocalPlayerPawn := some 3
    TimerState := ECSKTimerState.ActionPhase
    TimeRemaining := -1
    NewActionPhaseTimeRemaining := 0
    bTimerPaused := false
    ActionPhaseTime := -1 }

/-- A world with `SampleGameState` and two board managers. -/
def SampleWorld : UWorld :=
  { GameState := some SampleGameState, BoardManagers := [11, 12], PathName := "Board" }

/-- A world context object that resolves to `SampleWorld`. -/
def SampleContext : Option UObject := some { World := some SampleWorld }

/-- A world whose game state has no local pawn yet. -/
def SampleContextNoPawn : Option UObject :=
  some { World := some { SampleWorld with
    GameState := some { SampleGameState with LocalPlayerPawn := none } } }

/-- A tile at hex coordinate (1, -1, 0). -/
def SampleTile : ATile :=
  { GridHexValue := ⟨1, -1, 0⟩, ActorLocation := ⟨100, 200, 0⟩ }

/-! ## Predicates used to state the travel-task theorems -/

/-- The component is on a travel task of duration `T` with no actor tracked, owned by pawn
`p`, and the elapsed fraction is `a / T`. -/
def TravellingAt (s : UCSKPawnMovement) (p : APawn) (T a : ℚ) : Prop :=
  s.TrackedActor = none ∧ s.bIsTravelling = true ∧ s.PawnOwner = some p ∧
    s.TravelToTime = T ∧ s.TravelElapsedTime = a / T

/-- The travel task has completed: nothing is tracked, the travelling flag is cleared, the
elapsed fraction is exactly 1 and the owner is `p` with one more broadcast of
`OnTravelTaskFinished`. -/
def TravelFinished (s : UCSKPawnMovement) (p : APawn) : Prop :=
  s.TrackedActor = none ∧ s.bIsTravelling = false ∧ s.TravelElapsedTime = 1 ∧
    s.PawnOwner =
      some { p with OnTravelTaskFinishedBroadcasts := p.OnTravelTaskFinishedBroadcasts + 1 }

/-! ## Theorems on `UCSKPawnMovement` -/

/-- The state left by an accepted `TravelToLocation`. -/
theorem TravelToLocation_of_free (s : UCSKPawnMovement) (Location : FVector) (TravelTime : ℚ)
    (bCancellable : Bool) (hTrack : s.TrackedActor = none)
    (hFree : s.bIsTravelling = false ∨ s.bCanCacelTravel = true) :
    TravelToLocation s Location TravelTime bCancellable =
      { s with
        bIsTravelling := true
        bCanCacelTravel := bCancellable
        TravelFrom := s.ComponentLocation
        TravelGoal := Location
        TravelToTime := TravelTime
        TravelElapsedTime := 0 } := by
  have hGuard : (!s.bIsTravelling || s.bCanCacelTravel) = true := by
    rcases hFree with h | h <;> simp [h]
  simp [TravelToLocation, IsTrackingActor, hTrack, hGuard]

/-- C1: an accepted `TravelToLocation` starts a fresh travel task. In every state where no
actor is tracked and either no travel is in progress or the current one is cancellable, after
the call the component is travelling, the cancellable flag is the argument, `TravelFrom` is
the current component location, `TravelGoal` and `TravelToTime` are the arguments, the elapsed
fraction is 0 and the tracked actor is unchanged. -/
theorem TravelToLocation_accepted (s : UCSKPawnMovement) (Location : FVector) (TravelTime : ℚ)
    (bCancellable : Bool) (hTrack : s.TrackedActor = none)
    (hFree : s.bIsTravelling = false ∨ s.bCanCacelTravel = true) :
    (TravelToLocation s Location TravelTime bCancellable).bIsTravelling = true ∧
    (TravelToLocation s Location TravelTime bCancellable).bCanCacelTravel = bCancellable ∧
    (TravelToLocation s Location TravelTime bCancellable).TravelFrom = s.ComponentLocation ∧
    (TravelToLocation s Location TravelTime bCancellable).TravelGoal = Location ∧
    (TravelToLocation s Location TravelTime bCancellable).TravelToTime = TravelTime ∧
    (TravelToLocation s Location TravelTime bCancellable).TravelElapsedTime = 0 ∧
    (TravelToLocation s Location TravelTime bCancellable).TrackedActor = s.TrackedActor := by
  rw [TravelToLocation_of_free s Location TravelTime bCancellable hTrack hFree]
  exact ⟨rfl, rfl, rfl, rfl, rfl, rfl, rfl⟩

/-- Instance of C1 on a component that is already on a cancellable travel task. -/
theorem TravelToLocation_accepted_witness :
    (TravelToLocation SampleMovement ⟨1, 1, 1⟩ 3 true).TrackedActor = none ∧
    ((TravelToLocation SampleMovement ⟨1, 1, 1⟩ 3 true).bIsTravelling = false ∨
      (TravelToLocation SampleMovement ⟨1, 1, 1⟩ 3 true).bCanCacelTravel = true) ∧
    (TravelToLocation (TravelToLocation SampleMovement ⟨1, 1, 1⟩ 3 true) ⟨8, 0, 2⟩ 4 false).bIsTravelling = true ∧
    (TravelToLocation (TravelToLocation SampleMovement ⟨1, 1, 1⟩ 3 true) ⟨8, 0, 2⟩ 4 false).bCanCacelTravel = false ∧
    (TravelToLocation (TravelToLocation SampleMovement ⟨1, 1, 1⟩ 3 true) ⟨8, 0, 2⟩ 4 false).TravelFrom = ⟨5, 6, 7⟩ ∧
    (TravelToLocation (TravelToLocation SampleMovement ⟨1, 1, 1⟩ 3 true) ⟨8, 0, 2⟩ 4 false).TravelGoal = ⟨8, 0, 2⟩ ∧
    (TravelToLocation (TravelToLocation SampleMovement ⟨1, 1, 1⟩ 3 true) ⟨8, 0, 2⟩ 4 false).TravelToTime = 4 ∧
    (TravelToLocation (TravelToLocation SampleMovement ⟨1, 1, 1⟩ 3 true) ⟨8, 0, 2⟩ 4 false).TravelElapsedTime = 0 ∧
    (TravelToLocation (TravelToLocation SampleMovement ⟨1, 1, 1⟩ 3 true) ⟨8, 0, 2⟩ 4 false).TrackedActor = none :=
  ⟨rfl, Or.inr rfl,
    TravelToLocation_accepted (TravelToLocation SampleMovement ⟨1, 1, 1⟩ 3 true) ⟨8, 0, 2⟩ 4 false
      rfl (Or.inr rfl)⟩

/-- C2: `TravelToLocation` is rejected without any effect while an actor is tracked or while
a travel task that cannot be cancelled is in progress: the whole state is unchanged. -/
theorem TravelToLocation_rejected (s : UCSKPawnMovement) (Location : FVector) (TravelTime : ℚ)
    (bCancellable : Bool)
    (hBusy : s.TrackedActor ≠ none ∨ (s.bIsTravelling = true ∧ s.bCanCacelTravel = false)) :
    TravelToLocation s Location TravelTime bCancellable = s := by
  rcases hBusy with h | ⟨h1, h2⟩
  · have hIs : IsTrackingActor s = true := by
      cases hT : s.TrackedActor with
      | none => exact absurd hT h
      | some t => simp [IsTrackingActor, hT]
    simp [TravelToLocation, hIs]
  · simp [TravelToLocation, h1, h2]

/-- Instance of C2 on a component that is on a travel task that cannot be cancelled. -/
theorem TravelToLocation_rejected_witness :
    ((TravelToLocation SampleMovement ⟨1, 1, 1⟩ 3 false).TrackedActor ≠ none ∨
      ((TravelToLocation SampleMovement ⟨1, 1, 1⟩ 3 false).bIsTravelling = true ∧
        (TravelToLocation SampleMovement ⟨1, 1, 1⟩ 3 false).bCanCacelTravel = false)) ∧
    TravelToLocation (TravelToLocation SampleMovement ⟨1, 1, 1⟩ 3 false) ⟨8, 0, 2⟩ 4 true =
      TravelToLocation SampleMovement ⟨1, 1, 1⟩ 3 false :=
  ⟨Or.inr ⟨rfl, rfl⟩,
    TravelToLocation_rejected (TravelToLocation SampleMovement ⟨1, 1, 1⟩ 3 false) ⟨8, 0, 2⟩ 4 true
      (Or.inr ⟨rfl, rfl⟩)⟩

/-- Registering a tick prerequisite does not change the tracked actor. -/
theorem AddTickPrerequisiteActor_TrackedActor (s : UCSKPawnMovement) (a : Nat) :
    (AddTickPrerequisiteActor s a).TrackedActor = s.TrackedActor := by
  unfold AddTickPrerequisiteActor
  split <;> rfl

/-- After registering a tick prerequisite on an actor, that actor is a prerequisite. -/
theorem mem_AddTickPrerequisiteActor (s : UCSKPawnMovement) (a : Nat) :
    a ∈ (AddTickPrerequisiteActor s a).TickPrerequisiteActors := by
  unfold AddTickPrerequisiteActor
  split
  · assumption
  · simp

/-- C5: a valid tracking request locks onto the target and overrides any travel task. For
every state and every actor with a root component that is not rejected as static, after
`TrackActor` the tracked actor is that actor, the travelling flag is cleared and a tick
prerequisite on that actor is registered. -/
theorem TrackActor_valid (s : UCSKPawnMovement) (a : AActor) (Root : USceneComponent)
    (bIgnoreIfStatic : Bool) (hRoot : a.RootComponent = some Root)
    (hMobile : ¬ (bIgnoreIfStatic = true ∧ Root.Mobility = EComponentMobility.Static)) :
    (TrackActor s (some a) bIgnoreIfStatic).TrackedActor = some a.Id ∧
    (TrackActor s (some a) bIgnoreIfStatic).bIsTravelling = false ∧
    a.Id ∈ (TrackActor s (some a) bIgnoreIfStatic).TickPrerequisiteActors := by
  have hGuard : (bIgnoreIfStatic && decide (Root.Mobility = EComponentMobility.Static)) = false := by
    cases bIgnoreIfStatic with
    | false => rfl
    | true =>
      have : Root.Mobility ≠ EComponentMobility.Static := fun h => hMobile ⟨rfl, h⟩
      simp [this]
  simp [TrackActor, hRoot, hGuard, AddTickPrerequisiteActor_TrackedActor,
    mem_AddTickPrerequisiteActor]

/-- Instance of C5: tracking a static actor without the static filter while a travel task
that cannot be cancelled is in progress. -/
theorem TrackActor_valid_witness :
    SampleStaticActor.RootComponent = some { Mobility := EComponentMobility.Static } ∧
    ¬ (false = true ∧
      ({ Mobility := EComponentMobility.Static } : USceneComponent).Mobility =
        EComponentMobility.Static) ∧
    (TravelToLocation SampleMovement ⟨1, 1, 1⟩ 3 false).bIsTravelling = true ∧
    (TrackActor (TravelToLocation SampleMovement ⟨1, 1, 1⟩ 3 false)
      (some SampleStaticActor) false).TrackedActor = some SampleStaticActor.Id ∧
    (TrackActor (TravelToLocation SampleMovement ⟨1, 1, 1⟩ 3 false)
      (some SampleStaticActor) false).bIsTravelling = false ∧
    SampleStaticActor.Id ∈ (TrackActor (TravelToLocation SampleMovement ⟨1, 1, 1⟩ 3 false)
      (some SampleStaticActor) false).TickPrerequisiteActors :=
  ⟨rfl, fun h => Bool.noConfusion h.1, rfl,
    TrackActor_valid (TravelToLocation SampleMovement ⟨1, 1, 1⟩ 3 false) SampleStaticActor
      { Mobility := EComponentMobility.Static } false rfl (fun h => Bool.noConfusion h.1)⟩

/-! ### Travel updates -/

/-- Inside the unit interval `FMath::Clamp(x, 0, 1)` is the identity. -/
theorem Clamp_unit_of_lt (x : ℚ) (h0 : 0 ≤ x) (h1 : x < 1) : Clamp x 0 1 = x := by
  unfold Clamp
  rw [if_neg (not_lt.mpr h0), if_pos h1]

/-- From 1 upwards `FMath::Clamp(x, 0, 1)` is 1. -/
theorem Clamp_unit_of_ge (x : ℚ) (h1 : 1 ≤ x) : Clamp x 0 1 = 1 := by
  unfold Clamp
  rw [if_neg (not_lt.mpr (le_trans zero_le_one h1)), if_neg (not_lt.mpr h1)]

/-- One update of a travel task that does not reach the duration: the task goes on, the
owner is untouched (so nothing is broadcast) and the elapsed time grows by `d`. -/
theorem ApplyControlInputToVelocity_travel_continue (E : Engine) (s : UCSKPawnMovement)
    (p : APawn) (T a d : ℚ) (hin : p.ControlInputVector = FVector.ZeroVector) (hT : 0 < T)
    (ha : 0 ≤ a) (hd : 0 < d) (hlt : a + d < T) (h : TravellingAt s p T a) :
    ∃ s1, ApplyControlInputToVelocity E s d = some s1 ∧ TravellingAt s1 p T (a + d) := by
  have hfrac0 : 0 ≤ (a + d) / T := div_nonneg (by linarith) hT.le
  have hfrac1 : (a + d) / T < 1 := (div_lt_one hT).mpr hlt
  have hclamp : Clamp (a / T + d / T) 0 1 = (a + d) / T := by
    rw [← add_div]
    exact Clamp_unit_of_lt _ hfrac0 hfrac1
  refine ⟨UpdateTravelTaskVelocity E s d, ?_, ?_⟩
  · simp [ApplyControlInputToVelocity, IsTrackingActor, h.1, h.2.1]
  · obtain ⟨f1, f2, f3, f4, f5, f6, f7, f8, f9, f10, f11, f12⟩ := s
    obtain ⟨c1, c2, c3, c4⟩ := p
    simp only [TravellingAt] at h
    obtain ⟨rfl, rfl, rfl, rfl, rfl⟩ := h
    simp only at hin
    subst hin
    simp only [TravellingAt, UpdateTravelTaskVelocity, hclamp, if_neg (ne_of_lt hfrac1)]
    simp [ConsumeInputVector, Super_ConsumeInputVector]

/-- The update of a travel task that reaches the duration: the elapsed fraction becomes
exactly 1, the travelling flag is cleared and `OnTravelTaskFinished` is broadcast once. -/
theorem ApplyControlInputToVelocity_travel_finish (E : Engine) (s : UCSKPawnMovement)
    (p : APawn) (T a d : ℚ) (hcsk : p.bIsCSKPawn = true)
    (hin : p.ControlInputVector = FVector.ZeroVector) (hT : 0 < T) (hge : T ≤ a + d)
    (h : TravellingAt s p T a) :
    ∃ s1, ApplyControlInputToVelocity E s d = some s1 ∧ TravelFinished s1 p := by
  have hclamp : Clamp (a / T + d / T) 0 1 = 1 := by
    rw [← add_div]
    exact Clamp_unit_of_ge _ ((one_le_div hT).mpr hge)
  refine ⟨UpdateTravelTaskVelocity E s d, ?_, ?_⟩
  · simp [ApplyControlInputToVelocity, IsTrackingActor, h.1, h.2.1]
  · obtain ⟨f1, f2, f3, f4, f5, f6, f7, f8, f9, f10, f11, f12⟩ := s
    obtain ⟨c1, c2, c3, c4⟩ := p
    simp only [TravellingAt] at h
    obtain ⟨rfl, rfl, rfl, rfl, rfl⟩ := h
    simp only at hin hcsk
    subst hin hcsk
    simp only [TravelFinished, UpdateTravelTaskVelocity, hclamp]
    simp [ConsumeInputVector, Super_ConsumeInputVector, BroadcastTravelTaskFinished]

/-- Once the task has completed and no input is pending, a later call of
`ApplyControlInputToVelocity` (with any `DeltaTime`) runs the base update and leaves the
travel state and the broadcast count as they are. -/
theorem ApplyControlInputToVelocity_after_finish (E : Engine) (s : UCSKPawnMovement)
    (p : APawn) (d : ℚ) (hin : p.ControlInputVector = FVector.ZeroVector)
    (h : TravelFinished s p) :
    ∃ s1, ApplyControlInputToVelocity E s d = some s1 ∧ TravelFinished s1 p := by
  refine ⟨Super_ApplyControlInputToVelocity E s d, ?_, ?_⟩
  · simp [ApplyControlInputToVelocity, IsTrackingActor, h.1, h.2.1]
  · obtain ⟨f1, f2, f3, f4, f5, f6, f7, f8, f9, f10, f11, f12⟩ := s
    obtain ⟨c1, c2, c3, c4⟩ := p
    simp only [TravelFinished] at h
    obtain ⟨rfl, rfl, rfl, rfl⟩ := h
    simp only at hin
    subst hin
    simp [TravelFinished, Super_ApplyControlInputToVelocity, ConsumeInputVector,
      Super_ConsumeInputVector]

/-- Running two sequences of updates one after the other. -/
theorem RunUpdates_append (E : Engine) (xs ys : List ℚ) (s : UCSKPawnMovement) :
    RunUpdates E s (xs ++ ys) = (RunUpdates E s xs).bind (fun s1 => RunUpdates E s1 ys) := by
  induction xs generalizing s with
  | nil => rfl
  | cons x xs ih =>
    simp only [List.cons_append, RunUpdates]
    cases ApplyControlInputToVelocity E s x with
    | none => rfl
    | some s1 => exact ih s1

/-- Any sequence of updates after completion keeps the completed state. -/
theorem RunUpdates_after_finish (E : Engine) (p : APawn)
    (hin : p.ControlInputVector = FVector.ZeroVector) (es : List ℚ) :
    ∀ s : UCSKPawnMovement, TravelFinished s p →
      ∃ sk, RunUpdates E s es = some sk ∧ TravelFinished sk p := by
  induction es with
  | nil => exact fun s h => ⟨s, rfl, h⟩
  | cons e es ih =>
    intro s h
    obtain ⟨s1, h1, h2⟩ := ApplyControlInputToVelocity_after_finish E s p e hin h
    obtain ⟨sk, h3, h4⟩ := ih s1 h2
    exact ⟨sk, by simp only [RunUpdates, h1, h3], h4⟩

/-- A sequence of updates with positive `DeltaTime`s on a travel task: the run always
returns, and the task is still in flight exactly while the accumulated time is below the
duration, completed afterwards. -/
theorem RunUpdates_travel (E : Engine) (p : APawn) (T : ℚ) (hcsk : p.bIsCSKPawn = true)
    (hin : p.ControlInputVector = FVector.ZeroVector) (hT : 0 < T) (ds : List ℚ) :
    (∀ d ∈ ds, 0 < d) → ∀ (s : UCSKPawnMovement) (a : ℚ), 0 ≤ a → a < T →
      TravellingAt s p T a →
      ∃ sk, RunUpdates E s ds = some sk ∧
        ((a + ds.sum < T ∧ TravellingAt sk p T (a + ds.sum)) ∨
          (T ≤ a + ds.sum ∧ TravelFinished sk p)) := by
  induction ds with
  | nil =>
    intro _ s a _ hlt h
    exact ⟨s, rfl, Or.inl ⟨by simpa using hlt, by simpa using h⟩⟩
  | cons d ds ih =>
    intro hpos s a ha _ h
    have hd : 0 < d := hpos d (List.mem_cons_self d ds)
    have hrest : ∀ x ∈ ds, 0 < x := fun x hx => hpos x (List.mem_cons_of_mem d hx)
    have hsum : a + (d :: ds).sum = a + d + ds.sum := by
      rw [List.sum_cons, add_assoc]
    rw [hsum]
    rcases lt_or_le (a + d) T with hlt | hge
    · obtain ⟨s1, h1, h2⟩ :=
        ApplyControlInputToVelocity_travel_continue E s p T a d hin hT ha hd hlt h
      obtain ⟨sk, h3, h4⟩ := ih hrest s1 (a + d) (by linarith) hlt h2
      exact ⟨sk, by simp only [RunUpdates, h1, h3], h4⟩
    · obtain ⟨s1, h1, h2⟩ :=
        ApplyControlInputToVelocity_travel_finish E s p T a d hcsk hin hT hge h
      obtain ⟨sk, h3, h4⟩ := RunUpdates_after_finish E p hin ds s1 h2
      have hnonneg : 0 ≤ ds.sum := List.sum_nonneg (fun x hx => (hrest x hx).le)
      exact ⟨sk, by simp only [RunUpdates, h1, h3], Or.inr ⟨by linarith, h4⟩⟩

/-- C4: a travel task reports completion exactly once, when its duration has elapsed. For an
accepted travel task with `TravelToTime > 0` owned by a CSK pawn with no pending input and
every list `ds` of positive `DeltaTime`s: (1) after the first `k` updates, while their sum is
below the duration, the component is still travelling, the elapsed fraction is the sum over
the duration and nothing has been broadcast; (2) the first update that brings the sum to the
duration sets the elapsed fraction to exactly 1, clears the travelling flag and broadcasts
`OnTravelTaskFinished` once; (3) after that, whatever further calls of
`ApplyControlInputToVelocity` follow (any `DeltaTime`s `es`), the broadcast count stays at one
more than before the task. Every run returns a state. -/
theorem TravelTask_completes_once (E : Engine) (s : UCSKPawnMovement) (p : APawn)
    (Location : FVector) (T : ℚ) (bCancellable : Bool) (ds : List ℚ)
    (hTrack : s.TrackedActor = none)
    (hFree : s.bIsTravelling = false ∨ s.bCanCacelTravel = true)
    (hOwner : s.PawnOwner = some p) (hCSK : p.bIsCSKPawn = true)
    (hInput : p.ControlInputVector = FVector.ZeroVector) (hT : 0 < T)
    (hds : ∀ d ∈ ds, 0 < d) :
    (∀ k, (ds.take k).sum < T →
      ∃ sk, RunUpdates E (TravelToLocation s Location T bCancellable) (ds.take k) = some sk ∧
        sk.bIsTravelling = true ∧ sk.TravelElapsedTime = (ds.take k).sum / T ∧
        Broadcasts sk = Broadcasts s) ∧
    (∀ k, (ds.take k).sum < T → T ≤ (ds.take (k + 1)).sum →
      ∃ sk, RunUpdates E (TravelToLocation s Location T bCancellable) (ds.take (k + 1)) = some sk ∧
        sk.TravelElapsedTime = 1 ∧ sk.bIsTravelling = false ∧
        Broadcasts sk = Broadcasts s + 1) ∧
    (∀ k es, T ≤ (ds.take k).sum →
      ∃ sk, RunUpdates E (TravelToLocation s Location T bCancellable) (ds.take k ++ es) = some sk ∧
        sk.bIsTravelling = false ∧ Broadcasts sk = Broadcasts s + 1) := by
  have hstart : TravellingAt (TravelToLocation s Location T bCancellable) p T 0 := by
    rw [TravelToLocation_of_free s Location T bCancellable hTrack hFree]
    exact ⟨hTrack, rfl, hOwner, rfl, (zero_div T).symm⟩
  have hrun : ∀ k, ∃ sk,
      RunUpdates E (TravelToLocation s Location T bCancellable) (ds.take k) = some sk ∧
        (((ds.take k).sum < T ∧ TravellingAt sk p T (ds.take k).sum) ∨
          (T ≤ (ds.take k).sum ∧ TravelFinished sk p)) := by
    intro k
    have hpos : ∀ d ∈ ds.take k, 0 < d := fun d hd => hds d (List.mem_of_mem_take hd)
    simpa using RunUpdates_travel E p T hCSK hInput hT (ds.take k) hpos _ 0 le_rfl hT hstart
  have hB0 : Broadcasts s = p.OnTravelTaskFinishedBroadcasts := by
    simp [Broadcasts, hOwner]
  refine ⟨?_, ?_, ?_⟩
  · intro k hk
    obtain ⟨sk, hsk, hcase⟩ := hrun k
    rcases hcase with ⟨_, h⟩ | ⟨hge, _⟩
    · exact ⟨sk, hsk, h.2.1, h.2.2.2.2, by rw [hB0]; simp [Broadcasts, h.2.2.1]⟩
    · exact absurd hk (not_lt.mpr hge)
  · intro k _ hge
    obtain ⟨sk, hsk, hcase⟩ := hrun (k + 1)
    rcases hcase with ⟨hlt, _⟩ | ⟨_, h⟩
    · exact absurd hlt (not_lt.mpr hge)
    · exact ⟨sk, hsk, h.2.2.1, h.2.1, by rw [hB0]; simp [Broadcasts, h.2.2.2]⟩
  · intro k es hge
    obtain ⟨sk, hsk, hcase⟩ := hrun k
    rcases hcase with ⟨hlt, _⟩ | ⟨_, h⟩
    · exact absurd hlt (not_lt.mpr hge)
    · obtain ⟨sf, hsf, hfin⟩ := RunUpdates_after_finish E p hInput es sk h
      refine ⟨sf, ?_, hfin.2.1, by rw [hB0]; simp [Broadcasts, hfin.2.2.2]⟩
      rw [RunUpdates_append, hsk]
      exact hsf

/-- Instance of C4: a task of duration 2 updated with `DeltaTime`s 1/2, 1, 1, 1/4 on the
sample component. -/
theorem TravelTask_completes_once_witness :
    SampleMovement.TrackedActor = none ∧
    (SampleMovement.bIsTravelling = false ∨ SampleMovement.bCanCacelTravel = true) ∧
    SampleMovement.PawnOwner = some SamplePawn ∧ SamplePawn.bIsCSKPawn = true ∧
    SamplePawn.ControlInputVector = FVector.ZeroVector ∧ (0 : ℚ) < 2 ∧
    (∀ d ∈ ([1 / 2, 1, 1, 1 / 4] : List ℚ), 0 < d) ∧
    ((∀ k, (([1 / 2, 1, 1, 1 / 4] : List ℚ).take k).sum < 2 →
      ∃ sk, RunUpdates SampleEngine (TravelToLocation SampleMovement ⟨8, 0, 2⟩ 2 false)
          (([1 / 2, 1, 1, 1 / 4] : List ℚ).take k) = some sk ∧
        sk.bIsTravelling = true ∧
        sk.TravelElapsedTime = (([1 / 2, 1, 1, 1 / 4] : List ℚ).take k).sum / 2 ∧
        Broadcasts sk = Broadcasts SampleMovement) ∧
    (∀ k, (([1 / 2, 1, 1, 1 / 4] : List ℚ).take k).sum < 2 →
      2 ≤ (([1 / 2, 1, 1, 1 / 4] : List ℚ).take (k + 1)).sum →
      ∃ sk, RunUpdates SampleEngine (TravelToLocation SampleMovement ⟨8, 0, 2⟩ 2 false)
          (([1 / 2, 1, 1, 1 / 4] : List ℚ).take (k + 1)) = some sk ∧
        sk.TravelElapsedTime = 1 ∧ sk.bIsTravelling = false ∧
        Broadcasts sk = Broadcasts SampleMovement + 1) ∧
    (∀ k es, 2 ≤ (([1 / 2, 1, 1, 1 / 4] : List ℚ).take k).sum →
      ∃ sk, RunUpdates SampleEngine (TravelToLocation SampleMovement ⟨8, 0, 2⟩ 2 false)
          (([1 / 2, 1, 1, 1 / 4] : List ℚ).take k ++ es) = some sk ∧
        sk.bIsTravelling = false ∧ Broadcasts sk = Broadcasts SampleMovement + 1)) :=
  have hpos : ∀ d ∈ ([1 / 2, 1, 1, 1 / 4] : List ℚ), 0 < d := by
    intro d hd
    simp only [List.mem_cons, List.mem_singleton, List.not_mem_nil, or_false] at hd
    rcases hd with rfl | rfl | rfl | rfl <;> norm_num
  ⟨rfl, Or.inl rfl, rfl, rfl, rfl, by norm_num, hpos,
    TravelTask_completes_once SampleEngine SampleMovement SamplePawn ⟨8, 0, 2⟩ 2 false
      [1 / 2, 1, 1, 1 / 4] rfl (Or.inl rfl) rfl rfl rfl (by norm_num) hpos⟩

/-! ### Travel tasks that cannot be cancelled -/

/-- What `ConsumeInputVector` does to the state: it returns the pending input, leaves no
input pending, clears the travelling flag exactly when the returned input is not zero, and
leaves the tracked actor, the travel members and the elapsed fraction as they are. -/
theorem ConsumeInputVector_state (s : UCSKPawnMovement) :
    (ConsumeInputVector s).1 = GetPendingInputVector s ∧
    GetPendingInputVector (ConsumeInputVector s).2 = FVector.ZeroVector ∧
    (ConsumeInputVector s).2.bIsTravelling =
      (if GetPendingInputVector s ≠ FVector.ZeroVector then false else s.bIsTravelling) ∧
    (ConsumeInputVector s).2.TrackedActor = s.TrackedActor ∧
    (ConsumeInputVector s).2.bCanCacelTravel = s.bCanCacelTravel ∧
    (ConsumeInputVector s).2.TravelElapsedTime = s.TravelElapsedTime := by
  obtain ⟨f1, f2, f3, f4, f5, f6, f7, f8, f9, f10, f11, f12⟩ := s
  cases f11 with
  | none => simp [ConsumeInputVector, Super_ConsumeInputVector, GetPendingInputVector]
  | some q =>
    by_cases hq : q.ControlInputVector = FVector.ZeroVector <;>
      simp [ConsumeInputVector, Super_ConsumeInputVector, GetPendingInputVector, hq]

/-- The broadcast touches nothing but the broadcast count of the owner. -/
theorem BroadcastTravelTaskFinished_state (s : UCSKPawnMovement) :
    GetPendingInputVector (BroadcastTravelTaskFinished s) = GetPendingInputVector s ∧
    (BroadcastTravelTaskFinished s).bIsTravelling = s.bIsTravelling ∧
    (BroadcastTravelTaskFinished s).TrackedActor = s.TrackedActor ∧
    (BroadcastTravelTaskFinished s).bCanCacelTravel = s.bCanCacelTravel ∧
    (BroadcastTravelTaskFinished s).TravelElapsedTime = s.TravelElapsedTime := by
  obtain ⟨f1, f2, f3, f4, f5, f6, f7, f8, f9, f10, f11, f12⟩ := s
  cases f11 with
  | none => simp [BroadcastTravelTaskFinished, GetPendingInputVector]
  | some q =>
    by_cases hq : q.bIsCSKPawn = true <;>
      simp [BroadcastTravelTaskFinished, GetPendingInputVector, hq]

/-- What a travel update does to the travel state: the elapsed fraction is advanced and
clamped, the travelling flag is cleared when the fraction is exactly 1 or when input was
pending, and it is otherwise kept. -/
theorem UpdateTravelTaskVelocity_state (E : Engine) (s : UCSKPawnMovement) (d : ℚ) :
    (UpdateTravelTaskVelocity E s d).TravelElapsedTime =
      Clamp (s.TravelElapsedTime + d / s.TravelToTime) 0 1 ∧
    (UpdateTravelTaskVelocity E s d).bIsTravelling =
      (if GetPendingInputVector s ≠ FVector.ZeroVector then false
        else if Clamp (s.TravelElapsedTime + d / s.TravelToTime) 0 1 = 1 then false
        else s.bIsTravelling) ∧
    (UpdateTravelTaskVelocity E s d).TrackedActor = s.TrackedActor ∧
    (UpdateTravelTaskVelocity E s d).bCanCacelTravel = s.bCanCacelTravel ∧
    GetPendingInputVector (UpdateTravelTaskVelocity E s d) = FVector.ZeroVector := by
  unfold UpdateTravelTaskVelocity
  simp only
  by_cases hdone : Clamp (s.TravelElapsedTime + d / s.TravelToTime) 0 1 = 1
  · simp only [hdone, if_true]
    obtain ⟨c1, c2, c3, c4, c5, c6⟩ := ConsumeInputVector_state (BroadcastTravelTaskFinished
      { s with
        TravelElapsedTime := 1
        Velocity := ((Lerp s.TravelFrom s.TravelGoal (E.InterpSinInOut 0 1 1)).sub
          s.ComponentLocation).divide d
        bIsTravelling := false })
    obtain ⟨b1, b2, b3, b4, b5⟩ := BroadcastTravelTaskFinished_state
      { s with
        TravelElapsedTime := 1
        Velocity := ((Lerp s.TravelFrom s.TravelGoal (E.InterpSinInOut 0 1 1)).sub
          s.ComponentLocation).divide d
        bIsTravelling := false }
    refine ⟨c6.trans b5, ?_, c4.trans b3, c5.trans b4, c2⟩
    rw [c3, b1, b2]
    simp [GetPendingInputVector]
  · simp only [hdone, if_false]
    obtain ⟨c1, c2, c3, c4, c5, c6⟩ := ConsumeInputVector_state
      { s with
        TravelElapsedTime := Clamp (s.TravelElapsedTime + d / s.TravelToTime) 0 1
        Velocity := ((Lerp s.TravelFrom s.TravelGoal (E.InterpSinInOut 0 1
          (Clamp (s.TravelElapsedTime + d / s.TravelToTime) 0 1))).sub
          s.ComponentLocation).divide d }
    refine ⟨c6, ?_, c4, c5, c2⟩
    rw [c3]
    simp [GetPendingInputVector]

/-- With no input pending at the time it is accepted, a travel task that cannot be cancelled
stays in progress under every sequence of `AddInputVector` calls and travel updates until the
elapsed fraction is exactly 1. -/
theorem StaysTravellingUntilDone_of_no_pending_input (E : Engine) (ops : List MovementInputOp) :
    ∀ s : UCSKPawnMovement, s.TrackedActor = none → s.bIsTravelling = true →
      s.bCanCacelTravel = false → GetPendingInputVector s = FVector.ZeroVector →
      StaysTravellingUntilDone E s ops = true := by
  induction ops with
  | nil => intros; rfl
  | cons op ops ih =>
    intro s h1 h2 h3 h4
    cases op with
    | AddInput v f =>
      have hstep : StepInputOp E s (MovementInputOp.AddInput v f) = s := by
        simp [StepInputOp, AddInputVector, IsTrackingActor, h1, h2, h3]
      simp only [StaysTravellingUntilDone, hstep, h2, ih s h1 h2 h3 h4, Bool.and_self,
        Bool.or_true]
    | TravelUpdate d =>
      obtain ⟨u1, u2, u3, u4, u5⟩ := UpdateTravelTaskVelocity_state E s d
      simp only [StaysTravellingUntilDone, StepInputOp]
      by_cases hdone : (UpdateTravelTaskVelocity E s d).TravelElapsedTime = 1
      · simp [hdone]
      · have hclamp : ¬ Clamp (s.TravelElapsedTime + d / s.TravelToTime) 0 1 = 1 := by
          rw [← u1]
          exact hdone
        have htrav : (UpdateTravelTaskVelocity E s d).bIsTravelling = true := by
          rw [u2, h4]
          simp [hclamp, h2]
        simp [hdone, htrav, ih _ (u3.trans h1) htrav (u4.trans h3) u5]

/-- C3 (evaluation at the failing input): on the freshly constructed component owned by a CSK
pawn, one `AddInputVector` leaves the input (1, 0, 0) pending; a `TravelToLocation` with
`bCancellable = false` is then accepted; the first travel update (duration 2, `DeltaTime`
1/10) advances the elapsed fraction to 1/20 only and nevertheless clears the travelling flag,
because `ConsumeInputVector` returns the input that was pending before the task started.
This holds for every engine `E`. -/
theorem NonCancellableTravel_cancelled_by_pending_input (E : Engine) :
    (TravelToLocation (AddInputVector SampleMovement ⟨1, 0, 0⟩ false) ⟨8, 0, 2⟩ 2
      false).bIsTravelling = true ∧
    (TravelToLocation (AddInputVector SampleMovement ⟨1, 0, 0⟩ false) ⟨8, 0, 2⟩ 2
      false).bCanCacelTravel = false ∧
    (UpdateTravelTaskVelocity E
      (TravelToLocation (AddInputVector SampleMovement ⟨1, 0, 0⟩ false) ⟨8, 0, 2⟩ 2 false)
      (1 / 10)).TravelElapsedTime = 1 / 20 ∧
    (UpdateTravelTaskVelocity E
      (TravelToLocation (AddInputVector SampleMovement ⟨1, 0, 0⟩ false) ⟨8, 0, 2⟩ 2 false)
      (1 / 10)).bIsTravelling = false ∧
    StaysTravellingUntilDone E
      (TravelToLocation (AddInputVector SampleMovement ⟨1, 0, 0⟩ false) ⟨8, 0, 2⟩ 2 false)
      [MovementInputOp.TravelUpdate (1 / 10)] = false := by
  have hs : TravelToLocation (AddInputVector SampleMovement ⟨1, 0, 0⟩ false) ⟨8, 0, 2⟩ 2 false =
      { SampleMovement with
        bIsTravelling := true
        TravelFrom := ⟨5, 6, 7⟩
        TravelGoal := ⟨8, 0, 2⟩
        PawnOwner := some { SamplePawn with ControlInputVector := ⟨1, 0, 0⟩ } } := by
    simp [TravelToLocation, AddInputVector, Super_AddInputVector, IsTrackingActor,
      SampleMovement, SamplePawn, UCSKPawnMovement.Construct, FVector.add, FVector.ZeroVector]
  obtain ⟨u1, u2, -, -, -⟩ := UpdateTravelTaskVelocity_state E
    (TravelToLocation (AddInputVector SampleMovement ⟨1, 0, 0⟩ false) ⟨8, 0, 2⟩ 2 false) (1 / 10)
  have hpend : GetPendingInputVector
      (TravelToLocation (AddInputVector SampleMovement ⟨1, 0, 0⟩ false) ⟨8, 0, 2⟩ 2 false) ≠
      FVector.ZeroVector := by
    rw [hs]
    simp [GetPendingInputVector, FVector.ZeroVector]
  have hel : (UpdateTravelTaskVelocity E
      (TravelToLocation (AddInputVector SampleMovement ⟨1, 0, 0⟩ false) ⟨8, 0, 2⟩ 2 false)
      (1 / 10)).TravelElapsedTime = 1 / 20 := by
    rw [u1, hs]
    simp only [SampleMovement, UCSKPawnMovement.Construct, Clamp]
    norm_num
  have htr : (UpdateTravelTaskVelocity E
      (TravelToLocation (AddInputVector SampleMovement ⟨1, 0, 0⟩ false) ⟨8, 0, 2⟩ 2 false)
      (1 / 10)).bIsTravelling = false := by
    rw [u2, if_pos hpend]
  refine ⟨by rw [hs], by rw [hs]; rfl, hel, htr, ?_⟩
  simp only [StaysTravellingUntilDone, StepInputOp, hel, htr]
  norm_num

/-! ### Movement input -/

/-- C13: `IsMoveInputIgnored` and `AddInputVector` agree on when input is ignored. In every
state where the base class does not itself ignore move input, `IsMoveInputIgnored` is `true`
exactly when an actor is tracked or a travel task that cannot be cancelled is in progress,
and exactly when `AddInputVector` (with either value of `bForce`) discards every vector, that
is, leaves the state as it is; when it is `false` the call is the base call and the vector is
added to the pending input. When the base class ignores move input, `IsMoveInputIgnored` is
`true`. -/
theorem IsMoveInputIgnored_agrees_with_AddInputVector (s : UCSKPawnMovement) (bForce : Bool) :
    (Super_IsMoveInputIgnored s = false →
      (IsMoveInputIgnored s = true ↔
        (s.TrackedActor ≠ none ∨ (s.bIsTravelling = true ∧ s.bCanCacelTravel = false))) ∧
      (IsMoveInputIgnored s = true ↔ ∀ v, AddInputVector s v bForce = s) ∧
      (IsMoveInputIgnored s = false → ∀ v,
        AddInputVector s v bForce = Super_AddInputVector s v bForce ∧
        GetPendingInputVector (AddInputVector s v bForce) = (GetPendingInputVector s).add v)) ∧
    (Super_IsMoveInputIgnored s = true → IsMoveInputIgnored s = true) := by
  obtain ⟨f1, f2, f3, f4, f5, f6, f7, f8, f9, f10, f11, f12⟩ := s
  constructor
  · intro hBase
    cases f11 with
    | none => simp [Super_IsMoveInputIgnored] at hBase
    | some p =>
      obtain ⟨⟨x, y, z⟩, c2, c3, c4⟩ := p
      simp only [Super_IsMoveInputIgnored] at hBase
      subst hBase
      refine ⟨?_, ?_, ?_⟩
      · cases f7 <;> cases f1 <;> cases f2 <;>
          simp [IsMoveInputIgnored, Super_IsMoveInputIgnored, IsTrackingActor]
      · constructor
        · intro hIgn v
          cases f7 <;> cases f1 <;> cases f2 <;>
            simp_all [IsMoveInputIgnored, Super_IsMoveInputIgnored, IsTrackingActor,
              AddInputVector]
        · intro hAll
          have h := hAll ⟨1, 0, 0⟩
          cases f7 <;> cases f1 <;> cases f2 <;>
            simp_all [IsMoveInputIgnored, Super_IsMoveInputIgnored, IsTrackingActor,
              AddInputVector, Super_AddInputVector, FVector.add]
      · intro hIgn v
        cases f7 <;> cases f1 <;> cases f2 <;>
          simp_all [IsMoveInputIgnored, Super_IsMoveInputIgnored, IsTrackingActor,
            AddInputVector, Super_AddInputVector, GetPendingInputVector]
  · intro hBase
    simp only [IsMoveInputIgnored, hBase]
    rfl

/-- Instance of C13: the sample component does not ignore input and adds the vector; once it
is on a travel task that cannot be cancelled it ignores input and discards the vector. -/
theorem IsMoveInputIgnored_agrees_with_AddInputVector_witness :
    Super_IsMoveInputIgnored SampleMovement = false ∧
    IsMoveInputIgnored SampleMovement = false ∧
    GetPendingInputVector (AddInputVector SampleMovement ⟨0, 1, 0⟩ false) =
      (GetPendingInputVector SampleMovement).add ⟨0, 1, 0⟩ ∧
    Super_IsMoveInputIgnored (TravelToLocation SampleMovement ⟨1, 1, 1⟩ 3 false) = false ∧
    IsMoveInputIgnored (TravelToLocation SampleMovement ⟨1, 1, 1⟩ 3 false) = true ∧
    AddInputVector (TravelToLocation SampleMovement ⟨1, 1, 1⟩ 3 false) ⟨0, 1, 0⟩ true =
      TravelToLocation SampleMovement ⟨1, 1, 1⟩ 3 false :=
  ⟨rfl, rfl,
    (((IsMoveInputIgnored_agrees_with_AddInputVector SampleMovement false).1 rfl).2.2 rfl
      ⟨0, 1, 0⟩).2,
    rfl, rfl,
    (((IsMoveInputIgnored_agrees_with_AddInputVector
      (TravelToLocation SampleMovement ⟨1, 1, 1⟩ 3 false) true).1 rfl).2.1.mp rfl) ⟨0, 1, 0⟩⟩

/-- C14: `ConsumeInputVector` cancels a travel task exactly when there was input to consume.
It returns the pending input of the base class; when that vector is not zero the travelling
flag becomes `false`, when it is zero the travelling flag is unchanged; in both cases the
tracked actor, `TravelGoal`, `TravelFrom` and the cancellable flag are unchanged and
`OnTravelTaskFinished` is not broadcast. -/
theorem ConsumeInputVector_spec (s : UCSKPawnMovement) :
    (ConsumeInputVector s).1 = GetPendingInputVector s ∧
    (GetPendingInputVector s ≠ FVector.ZeroVector →
      (ConsumeInputVector s).2.bIsTravelling = false) ∧
    (GetPendingInputVector s = FVector.ZeroVector →
      (ConsumeInputVector s).2.bIsTravelling = s.bIsTravelling) ∧
    (ConsumeInputVector s).2.TrackedActor = s.TrackedActor ∧
    (ConsumeInputVector s).2.TravelGoal = s.TravelGoal ∧
    (ConsumeInputVector s).2.TravelFrom = s.TravelFrom ∧
    (ConsumeInputVector s).2.bCanCacelTravel = s.bCanCacelTravel ∧
    Broadcasts (ConsumeInputVector s).2 = Broadcasts s := by
  obtain ⟨f1, f2, f3, f4, f5, f6, f7, f8, f9, f10, f11, f12⟩ := s
  cases f11 with
  | none => simp [ConsumeInputVector, Super_ConsumeInputVector, GetPendingInputVector, Broadcasts]
  | some q =>
    by_cases hq : q.ControlInputVector = FVector.ZeroVector <;>
      simp [ConsumeInputVector, Super_ConsumeInputVector, GetPendingInputVector, Broadcasts, hq]

/-- Instance of C14: consuming the pending input (1, 0, 0) ends a cancellable travel task;
consuming with nothing pending leaves it in progress. -/
theorem ConsumeInputVector_spec_witness :
    GetPendingInputVector
      (AddInputVector (TravelToLocation SampleMovement ⟨1, 1, 1⟩ 3 true) ⟨1, 0, 0⟩ false) ≠
      FVector.ZeroVector ∧
    (ConsumeInputVector
      (AddInputVector (TravelToLocation SampleMovement ⟨1, 1, 1⟩ 3 true) ⟨1, 0, 0⟩
        false)).2.bIsTravelling = false ∧
    GetPendingInputVector (TravelToLocation SampleMovement ⟨1, 1, 1⟩ 3 true) =
      FVector.ZeroVector ∧
    (ConsumeInputVector (TravelToLocation SampleMovement ⟨1, 1, 1⟩ 3 true)).2.bIsTravelling =
      (TravelToLocation SampleMovement ⟨1, 1, 1⟩ 3 true).bIsTravelling :=
  have hne : GetPendingInputVector
      (AddInputVector (TravelToLocation SampleMovement ⟨1, 1, 1⟩ 3 true) ⟨1, 0, 0⟩ false) ≠
      FVector.ZeroVector := by
    simp [GetPendingInputVector, AddInputVector, Super_AddInputVector, TravelToLocation,
      IsTrackingActor, SampleMovement, SamplePawn, UCSKPawnMovement.Construct, FVector.add,
      FVector.ZeroVector]
  ⟨hne,
    (ConsumeInputVector_spec
      (AddInputVector (TravelToLocation SampleMovement ⟨1, 1, 1⟩ 3 true) ⟨1, 0, 0⟩ false)).2.1
      hne,
    rfl,
    (ConsumeInputVector_spec (TravelToLocation SampleMovement ⟨1, 1, 1⟩ 3 true)).2.2.1 rfl⟩

/-! ### Tracking -/

/-- What `TrackActor` does to the travel state, for every argument: the cancellable flag,
the travel members, the elapsed fraction and the owner are untouched; the travelling flag is
kept when nothing is tracked afterwards and cleared when an actor is. -/
theorem TrackActor_state (s : UCSKPawnMovement) (ActorToTrack : Option AActor)
    (bIgnoreIfStatic : Bool) :
    (TrackActor s ActorToTrack bIgnoreIfStatic).bCanCacelTravel = s.bCanCacelTravel ∧
    (TrackActor s ActorToTrack bIgnoreIfStatic).TravelGoal = s.TravelGoal ∧
    (TrackActor s ActorToTrack bIgnoreIfStatic).TravelElapsedTime = s.TravelElapsedTime ∧
    ((TrackActor s ActorToTrack bIgnoreIfStatic).TrackedActor = none →
      (TrackActor s ActorToTrack bIgnoreIfStatic).bIsTravelling = s.bIsTravelling) ∧
    ((TrackActor s ActorToTrack bIgnoreIfStatic).TrackedActor ≠ none →
      (TrackActor s ActorToTrack bIgnoreIfStatic).bIsTravelling = false) := by
  obtain ⟨f1, f2, f3, f4, f5, f6, f7, f8, f9, f10, f11, f12⟩ := s
  rcases ActorToTrack with _ | ⟨id, _ | ⟨⟨m⟩⟩⟩
  · cases f7 <;> simp [TrackActor, RemoveTickPrerequisiteActor]
  · by_cases h : f7 = some id <;> cases f7 <;>
      simp_all [TrackActor, RemoveTickPrerequisiteActor]
  · rcases f7 with _ | t
    · cases bIgnoreIfStatic <;> cases m <;> by_cases hm : id ∈ f12 <;>
        simp_all [TrackActor, RemoveTickPrerequisiteActor, AddTickPrerequisiteActor]
    · cases bIgnoreIfStatic <;> cases m <;> by_cases hm : id ∈ f12 <;>
        by_cases h : id = t <;>
        simp_all [TrackActor, RemoveTickPrerequisiteActor, AddTickPrerequisiteActor,
          @eq_comm _ t id]

/-- C15: a rejected tracking request leaves nothing tracked and does not touch the travel
task. For every state and every `TrackActor` call whose actor is null, has no root component,
or is static while `bIgnoreIfStatic` is set, no actor is tracked afterwards and the travelling
flag, the cancellable flag, `TravelGoal` and the elapsed fraction are unchanged; and
`StopTrackingActor` always ends tracking. -/
theorem TrackActor_rejected (s : UCSKPawnMovement) (ActorToTrack : Option AActor)
    (bIgnoreIfStatic : Bool)
    (hRej : ActorToTrack = none ∨
      (∃ a, ActorToTrack = some a ∧ a.RootComponent = none) ∨
      (∃ a Root, ActorToTrack = some a ∧ a.RootComponent = some Root ∧
        bIgnoreIfStatic = true ∧ Root.Mobility = EComponentMobility.Static)) :
    (TrackActor s ActorToTrack bIgnoreIfStatic).TrackedActor = none ∧
    (TrackActor s ActorToTrack bIgnoreIfStatic).bIsTravelling = s.bIsTravelling ∧
    (TrackActor s ActorToTrack bIgnoreIfStatic).bCanCacelTravel = s.bCanCacelTravel ∧
    (TrackActor s ActorToTrack bIgnoreIfStatic).TravelGoal = s.TravelGoal ∧
    (TrackActor s ActorToTrack bIgnoreIfStatic).TravelElapsedTime = s.TravelElapsedTime ∧
    (∀ bIgnoreIfStaticDefault, (StopTrackingActor s bIgnoreIfStaticDefault).TrackedActor = none) := by
  have hNone : (TrackActor s ActorToTrack bIgnoreIfStatic).TrackedActor = none := by
    rcases hRej with h | ⟨a, h, hr⟩ | ⟨a, Root, h, hr, hb, hm⟩
    · simp [TrackActor, h]
    · simp [TrackActor, h, hr]
    · simp [TrackActor, h, hr, hb, hm]
  obtain ⟨t1, t2, t3, t4, -⟩ := TrackActor_state s ActorToTrack bIgnoreIfStatic
  exact ⟨hNone, t4 hNone, t1, t2, t3, fun bd => by simp [StopTrackingActor, TrackActor]⟩

/-- Instance of C15: while the actor 7 is tracked, a request for a static actor with the
static filter set is rejected and drops the tracked actor. -/
theorem TrackActor_rejected_witness :
    (∃ a Root, some SampleStaticActor = some a ∧ a.RootComponent = some Root ∧
      true = true ∧ Root.Mobility = EComponentMobility.Static) ∧
    (TrackActor SampleMovement (some SampleActor) true).TrackedActor = some 7 ∧
    (TrackActor (TrackActor SampleMovement (some SampleActor) true)
      (some SampleStaticActor) true).TrackedActor = none ∧
    (TrackActor (TrackActor SampleMovement (some SampleActor) true)
      (some SampleStaticActor) true).bIsTravelling =
      (TrackActor SampleMovement (some SampleActor) true).bIsTravelling :=
  have h := TrackActor_rejected (TrackActor SampleMovement (some SampleActor) true)
    (some SampleStaticActor) true (Or.inr (Or.inr ⟨SampleStaticActor, _, rfl, rfl, rfl, rfl⟩))
  ⟨⟨SampleStaticActor, _, rfl, rfl, rfl, rfl⟩, by
    simp [TrackActor, SampleMovement, SampleActor, UCSKPawnMovement.Construct,
      AddTickPrerequisiteActor_TrackedActor], h.1, h.2.1⟩

/-- After every `TrackActor` call the tracked actor, if any, is a tick prerequisite. -/
theorem TrackActor_tracked_is_prerequisite (s : UCSKPawnMovement)
    (ActorToTrack : Option AActor) (bIgnoreIfStatic : Bool) (t : Nat)
    (h : (TrackActor s ActorToTrack bIgnoreIfStatic).TrackedActor = some t) :
    t ∈ (TrackActor s ActorToTrack bIgnoreIfStatic).TickPrerequisiteActors := by
  rcases ActorToTrack with _ | ⟨id, _ | ⟨⟨m⟩⟩⟩
  · simp [TrackActor] at h
  · simp [TrackActor] at h
  · cases bIgnoreIfStatic <;> cases m <;>
      simp_all [TrackActor, AddTickPrerequisiteActor_TrackedActor] <;>
      subst h <;> exact mem_AddTickPrerequisiteActor _ _

/-- C16 (evaluation at the failing input): the sample component tracks nothing and holds no
prerequisite. `TrackActor(A, false)` with the static actor `A` (identity 9) tracks `A` and
registers the prerequisite. A second request for the same actor that is rejected, either
`TrackActor(A, true)` or `TrackActor(A, false)` after `A` lost its root component, leaves
nothing tracked but keeps the prerequisite on `A`: the removal is guarded by
`TrackedActor != ActorToTrack`, which is false here. -/
theorem TrackActor_rejected_same_actor_keeps_prerequisite :
    SampleMovement.TrackedActor = none ∧ SampleMovement.TickPrerequisiteActors = [] ∧
    (TrackActor SampleMovement (some SampleStaticActor) false).TrackedActor = some 9 ∧
    (TrackActor SampleMovement (some SampleStaticActor) false).TickPrerequisiteActors = [9] ∧
    (TrackActor (TrackActor SampleMovement (some SampleStaticActor) false)
      (some SampleStaticActor) true).TrackedActor = none ∧
    (TrackActor (TrackActor SampleMovement (some SampleStaticActor) false)
      (some SampleStaticActor) true).TickPrerequisiteActors = [9] ∧
    (TrackActor (TrackActor SampleMovement (some SampleStaticActor) false)
      (some { Id := 9, RootComponent := none }) false).TrackedActor = none ∧
    (TrackActor (TrackActor SampleMovement (some SampleStaticActor) false)
      (some { Id := 9, RootComponent := none }) false).TickPrerequisiteActors = [9] := by
  have h1 : TrackActor SampleMovement (some SampleStaticActor) false =
      { SampleMovement with TrackedActor := some 9, TickPrerequisiteActors := [9] } := by
    simp [TrackActor, AddTickPrerequisiteActor, SampleMovement, SampleStaticActor,
      UCSKPawnMovement.Construct]
  rw [h1]
  simp [TrackActor, SampleMovement, SampleStaticActor, UCSKPawnMovement.Construct]

/-! ### Tracking and travelling exclude each other -/

/-- Every call keeps the component from both tracking and travelling, and no call fails. -/
theorem StepCall_exclusive (E : Engine) (bIgnoreIfStaticDefault : Bool) (s : UCSKPawnMovement)
    (c : MovementCall) (h : (IsTrackingActor s && s.bIsTravelling) = false) :
    ∃ s1, StepCall E bIgnoreIfStaticDefault s c = some s1 ∧
      (IsTrackingActor s1 && s1.bIsTravelling) = false := by
  have hTrack : ∀ (A : Option AActor) (b : Bool),
      (IsTrackingActor (TrackActor s A b) && (TrackActor s A b).bIsTravelling) = false := by
    intro A b
    obtain ⟨-, -, -, -, t5⟩ := TrackActor_state s A b
    cases hT : (TrackActor s A b).TrackedActor with
    | none => simp [IsTrackingActor, hT]
    | some t => simp [IsTrackingActor, t5 (by simp [hT])]
  have hConsume : ∀ s0 : UCSKPawnMovement, (IsTrackingActor s0 && s0.bIsTravelling) = false →
      (IsTrackingActor (ConsumeInputVector s0).2 && (ConsumeInputVector s0).2.bIsTravelling) =
        false := by
    intro s0 h0
    obtain ⟨-, -, c3, c4, -, -⟩ := ConsumeInputVector_state s0
    simp only [IsTrackingActor, c3, c4] at h0 ⊢
    by_cases hp : GetPendingInputVector s0 = FVector.ZeroVector
    · simpa [hp] using h0
    · simp [hp]
  cases c with
  | TravelToLocation Location TravelTime bCancellable =>
    refine ⟨_, rfl, ?_⟩
    obtain ⟨f1, f2, f3, f4, f5, f6, f7, f8, f9, f10, f11, f12⟩ := s
    cases f7 <;> cases f1 <;> cases f2 <;> simp_all [TravelToLocation, IsTrackingActor]
  | TrackActor ActorToTrack bIgnoreIfStatic => exact ⟨_, rfl, hTrack _ _⟩
  | StopTrackingActor => exact ⟨_, rfl, hTrack _ _⟩
  | AddInputVector WorldVector bForce =>
    refine ⟨_, rfl, ?_⟩
    obtain ⟨f1, f2, f3, f4, f5, f6, f7, f8, f9, f10, f11, f12⟩ := s
    cases f11 <;> cases f7 <;> cases f1 <;> cases f2 <;>
      simp_all [AddInputVector, Super_AddInputVector, IsTrackingActor] <;>
      split <;> simp
  | ConsumeInputVector => exact ⟨_, rfl, hConsume s h⟩
  | ApplyControlInputToVelocity DeltaTime =>
    simp only [StepCall, ApplyControlInputToVelocity]
    cases hT : s.TrackedActor with
    | some t =>
      simp only [IsTrackingActor, hT, Option.isSome_some, if_true, UpdateTrackTaskVelocity]
      refine ⟨_, rfl, hConsume _ ?_⟩
      simpa [IsTrackingActor, hT] using h
    | none =>
      simp only [IsTrackingActor, hT, Option.isSome_none, Bool.false_eq_true, if_false]
      by_cases hTrav : s.bIsTravelling = true
      · simp only [hTrav, if_true]
        refine ⟨_, rfl, ?_⟩
        obtain ⟨-, -, u3, -, -⟩ := UpdateTravelTaskVelocity_state E s DeltaTime
        simp [IsTrackingActor, u3, hT]
      · simp only [hTrav, Bool.false_eq_true, if_false]
        refine ⟨_, rfl, ?_⟩
        unfold Super_ApplyControlInputToVelocity
        exact hConsume _ (by simp [IsTrackingActor, hT])

/-- C17: tracking and travelling are mutually exclusive. Starting from the constructed
component, every sequence of `TravelToLocation`, `TrackActor`, `StopTrackingActor`,
`AddInputVector`, `ConsumeInputVector` and `ApplyControlInputToVelocity` calls runs without a
failed `check(TrackedActor)` and ends in a state that is not both tracking an actor and
travelling; and from that state `ApplyControlInputToVelocity` again returns without failing
the assertion inside `UpdateTrackTaskVelocity`. -/
theorem Tracking_and_travelling_exclusive (E : Engine) (bIgnoreIfStaticDefault : Bool)
    (MaxSpeed : ℚ) (ComponentLocation : FVector) (PawnOwner : Option APawn)
    (calls : List MovementCall) :
    ∃ sk, RunCalls E bIgnoreIfStaticDefault
        (UCSKPawnMovement.Construct MaxSpeed ComponentLocation PawnOwner) calls = some sk ∧
      ¬ (IsTrackingActor sk = true ∧ sk.bIsTravelling = true) ∧
      ∀ DeltaTime, ∃ s1, ApplyControlInputToVelocity E sk DeltaTime = some s1 := by
  have hRun : ∀ (cs : List MovementCall) (s : UCSKPawnMovement),
      (IsTrackingActor s && s.bIsTravelling) = false →
      ∃ sk, RunCalls E bIgnoreIfStaticDefault s cs = some sk ∧
        (IsTrackingActor sk && sk.bIsTravelling) = false := by
    intro cs
    induction cs with
    | nil => exact fun s h => ⟨s, rfl, h⟩
    | cons c cs ih =>
      intro s h
      obtain ⟨s1, h1, h2⟩ := StepCall_exclusive E bIgnoreIfStaticDefault s c h
      obtain ⟨sk, h3, h4⟩ := ih s1 h2
      exact ⟨sk, by simp only [RunCalls, h1, h3], h4⟩
  obtain ⟨sk, h1, h2⟩ := hRun calls
    (UCSKPawnMovement.Construct MaxSpeed ComponentLocation PawnOwner) rfl
  refine ⟨sk, h1, by simpa using h2, fun DeltaTime => ?_⟩
  obtain ⟨s1, h3, -⟩ := StepCall_exclusive E bIgnoreIfStaticDefault sk
    (MovementCall.ApplyControlInputToVelocity DeltaTime) h2
  exact ⟨s1, h3⟩

/-! ## Theorems on `UConquestFunctionLibrary` -/

/-- Adding to a wrapped total wraps like adding to the exact total. -/
theorem wrap32_add_wrap32_left (a b : Int) : wrap32 (wrap32 a + b) = wrap32 (a + b) := by
  unfold wrap32
  omega

/-- A wrapped sum of two wrapped values is the wrapped exact sum. -/
theorem wrap32_add_wrap32 (a b : Int) : wrap32 (wrap32 a + wrap32 b) = wrap32 (a + b) := by
  unfold wrap32
  omega

/-- The accumulation loop started from a wrapped total `t` ends in the wrapped exact sum. -/
theorem foldl_wrap32 (Reports : List FHealthChangeReport) :
    ∀ t : Int, Reports.foldl (fun Total Repo => wrap32 (Total + Repo.Delta)) (wrap32 t) =
      wrap32 (t + (Reports.map FHealthChangeReport.Delta).sum) := by
  induction Reports with
  | nil => intro t; simp
  | cons r rs ih =>
    intro t
    simp only [List.foldl_cons, List.map_cons, List.sum_cons]
    rw [wrap32_add_wrap32_left, ih, add_assoc]

/-- The result of `AccumulateHealthReportDeltas` is the exact sum of the deltas reduced into
the `int32` range. -/
theorem AccumulateHealthReportDeltas_eq_sum (Reports : List FHealthChangeReport) :
    AccumulateHealthReportDeltas Reports =
      wrap32 ((Reports.map FHealthChangeReport.Delta).sum) := by
  have h := foldl_wrap32 Reports 0
  have h0 : wrap32 0 = 0 := by decide
  rw [h0, zero_add] at h
  exact h

/-- C6: `AccumulateHealthReportDeltas` returns the sum of the signed `Delta` fields in 32-bit
signed arithmetic: it is the wrapped sum of all deltas, 0 on the empty list, on a
concatenation it is the (32-bit) sum of the results on the two parts, and a damage delta and
the healing delta of the same size cancel, alone or next to any other reports. -/
theorem AccumulateHealthReportDeltas_sum (xs ys : List FHealthChangeReport)
    (o1 o2 : Option Nat) (d : Int) :
    AccumulateHealthReportDeltas xs = wrap32 ((xs.map FHealthChangeReport.Delta).sum) ∧
    AccumulateHealthReportDeltas [] = 0 ∧
    AccumulateHealthReportDeltas (xs ++ ys) =
      wrap32 (AccumulateHealthReportDeltas xs + AccumulateHealthReportDeltas ys) ∧
    AccumulateHealthReportDeltas [{ Owner := o1, Delta := -d }, { Owner := o2, Delta := d }] = 0 ∧
    AccumulateHealthReportDeltas
      (xs ++ [{ Owner := o1, Delta := -d }, { Owner := o2, Delta := d }] ++ ys) =
      AccumulateHealthReportDeltas (xs ++ ys) := by
  refine ⟨AccumulateHealthReportDeltas_eq_sum xs, rfl, ?_, ?_, ?_⟩
  · rw [AccumulateHealthReportDeltas_eq_sum, AccumulateHealthReportDeltas_eq_sum,
      AccumulateHealthReportDeltas_eq_sum, wrap32_add_wrap32, List.map_append, List.sum_append]
  · rw [AccumulateHealthReportDeltas_eq_sum]
    simp [wrap32]
  · rw [AccumulateHealthReportDeltas_eq_sum, AccumulateHealthReportDeltas_eq_sum]
    simp

/-- C7: `AreTilesWithingRange` rejects a missing tile with the sentinel and otherwise compares
the hex distance to the range. With either tile null it returns `false` and leaves -1 in
`OutDistance` for every `Range`; with both tiles present `OutDistance` is the hex displacement
of the two grid coordinates and the result is `true` exactly when `OutDistance <= Range`. -/
theorem AreTilesWithingRange_spec (HexDisplacement : FIntVector → FIntVector → Int)
    (T1 T2 : Option ATile) (t1 t2 : ATile) (Range : Int) :
    AreTilesWithingRange HexDisplacement none T2 Range = (false, -1) ∧
    AreTilesWithingRange HexDisplacement T1 none Range = (false, -1) ∧
    (AreTilesWithingRange HexDisplacement (some t1) (some t2) Range).2 =
      HexDisplacement t1.GridHexValue t2.GridHexValue ∧
    ((AreTilesWithingRange HexDisplacement (some t1) (some t2) Range).1 = true ↔
      (AreTilesWithingRange HexDisplacement (some t1) (some t2) Range).2 ≤ Range) := by
  refine ⟨rfl, ?_, rfl, ?_⟩
  · cases T1 <;> rfl
  · simp [AreTilesWithingRange]

/-- C8: `MoveLocalPlayerToTile` degrades to a no-op when a collaborator is missing and
otherwise issues exactly one travel request. With a null tile, with no game state, or with a
game state whose local pawn is not set, no request is issued; with a tile, a game state and a
local pawn, the single request goes to that pawn with the location of the tile, the given
`TravelTime` and the given `bCancellable`. -/
theorem MoveLocalPlayerToTile_spec (WorldContextObject : Option UObject) (Tile : Option ATile)
    (TravelTime : ℚ) (bCancellable : Bool) :
    (Tile = none ∨ GetCSKGameState WorldContextObject = none ∨
        (∃ gs, GetCSKGameState WorldContextObject = some gs ∧ gs.LocalPlayerPawn = none) →
      MoveLocalPlayerToTile WorldContextObject Tile TravelTime bCancellable = []) ∧
    (∀ tile gs pawn, Tile = some tile → GetCSKGameState WorldContextObject = some gs →
        gs.LocalPlayerPawn = some pawn →
      MoveLocalPlayerToTile WorldContextObject Tile TravelTime bCancellable =
        [{ Pawn := pawn, Location := tile.ActorLocation, TravelTime := TravelTime,
           bCancellable := bCancellable }]) := by
  constructor
  · rintro (h | h | ⟨gs, h, hp⟩)
    · simp [MoveLocalPlayerToTile, h]
    · cases Tile <;> simp [MoveLocalPlayerToTile, GetLocalPlayersCSKPawn, h]
    · cases Tile <;>
        simp [MoveLocalPlayerToTile, GetLocalPlayersCSKPawn, ACSKGameState.GetLocalPlayerPawn,
          h, hp]
  · intro tile gs pawn ht hg hp
    simp [MoveLocalPlayerToTile, GetLocalPlayersCSKPawn, ACSKGameState.GetLocalPlayerPawn,
      ht, hg, hp]

/-- Instance of C8: the game state exists but its local pawn is not set (no request), and
the fully configured world (one request to pawn 3). -/
theorem MoveLocalPlayerToTile_spec_witness :
    (∃ gs, GetCSKGameState SampleContextNoPawn = some gs ∧ gs.LocalPlayerPawn = none) ∧
    MoveLocalPlayerToTile SampleContextNoPawn (some SampleTile) 2 true = [] ∧
    GetCSKGameState SampleContext = some SampleGameState ∧
    SampleGameState.LocalPlayerPawn = some 3 ∧
    MoveLocalPlayerToTile SampleContext (some SampleTile) 2 true =
      [{ Pawn := 3, Location := ⟨100, 200, 0⟩, TravelTime := 2, bCancellable := true }] :=
  ⟨⟨_, rfl, rfl⟩,
    (MoveLocalPlayerToTile_spec SampleContextNoPawn (some SampleTile) 2 true).1
      (Or.inr (Or.inr ⟨_, rfl, rfl⟩)),
    rfl, rfl,
    (MoveLocalPlayerToTile_spec SampleContext (some SampleTile) 2 true).2
      SampleTile SampleGameState 3 rfl rfl rfl⟩

/-- C9 (evaluation at the failing input): with a world context object that resolves to no
world and `bWarnIfNotFound` set, `FindMatchBoardManager` skips the guarded search and then
formats the warning with `World->GetPathName()` through the null `World`; the same holds for
a null context object. With the warning off, or with a world, it returns normally. -/
theorem FindMatchBoardManager_null_world_warn :
    FindMatchBoardManager (some { World := none }) true = Except.error Fault.NullDereference ∧
    FindMatchBoardManager none true = Except.error Fault.NullDereference ∧
    FindMatchBoardManager (some { World := none }) false = Except.ok (none, []) ∧
    FindMatchBoardManager SampleContext true = Except.ok (some 11, []) :=
  ⟨rfl, rfl, rfl, rfl⟩

/-! ## Theorems on `ACSKGameState` -/

/-- C10: `IsTimerActive` depends only on the timer reason. It is `true` exactly when
`TimerState` is not `None`, it is not affected by the remaining time, it is `true` for each
of `ActionPhase`, `QuickEffect`, `BonusSpell` and `Custom` with any remaining time `t` (also
-1 and 0), and `false` for `None`. -/
theorem IsTimerActive_spec (gs : ACSKGameState) (t : Int) :
    (gs.IsTimerActive = true ↔ gs.TimerState ≠ ECSKTimerState.None) ∧
    (gs.IsTimerActive = false ↔ gs.TimerState = ECSKTimerState.None) ∧
    ACSKGameState.IsTimerActive { gs with TimeRemaining := t } = gs.IsTimerActive ∧
    ACSKGameState.IsTimerActive
      { gs with TimerState := ECSKTimerState.ActionPhase, TimeRemaining := t } = true ∧
    ACSKGameState.IsTimerActive
      { gs with TimerState := ECSKTimerState.QuickEffect, TimeRemaining := t } = true ∧
    ACSKGameState.IsTimerActive
      { gs with TimerState := ECSKTimerState.BonusSpell, TimeRemaining := t } = true ∧
    ACSKGameState.IsTimerActive
      { gs with TimerState := ECSKTimerState.Custom, TimeRemaining := t } = true ∧
    ACSKGameState.IsTimerActive
      { gs with TimerState := ECSKTimerState.None, TimeRemaining := t } = false := by
  refine ⟨?_, ?_, rfl, rfl, rfl, rfl, rfl, rfl⟩
  · simp [ACSKGameState.IsTimerActive]
  · simp [ACSKGameState.IsTimerActive]

/-- C11: `IsActionPhaseTimed` treats -1 as the only infinite sentinel. It is `false` exactly
when `ActionPhaseTime` is -1 and `true` for every other value `t`, also for 0 and for other
negative values. -/
theorem IsActionPhaseTimed_spec (gs : ACSKGameState) (t : Int) :
    (gs.IsActionPhaseTimed = false ↔ gs.ActionPhaseTime = -1) ∧
    (gs.IsActionPhaseTimed = true ↔ gs.ActionPhaseTime ≠ -1) ∧
    ACSKGameState.IsActionPhaseTimed { gs with ActionPhaseTime := t } = decide (t ≠ -1) ∧
    ACSKGameState.IsActionPhaseTimed { gs with ActionPhaseTime := -1 } = false ∧
    ACSKGameState.IsActionPhaseTimed { gs with ActionPhaseTime := 0 } = true ∧
    ACSKGameState.IsActionPhaseTimed { gs with ActionPhaseTime := -2 } = true := by
  refine ⟨?_, ?_, rfl, rfl, rfl, rfl⟩
  · simp [ACSKGameState.IsActionPhaseTimed]
  · simp [ACSKGameState.IsActionPhaseTimed]

/-! ### Timer countdown -/

/-- Without an active timer the periodic callbacks do nothing. -/
theorem RunTicks_inactive (n : Nat) (gs : ACSKGameState)
    (h : gs.TimerState = ECSKTimerState.None) : ACSKGameState.RunTicks n gs = (gs, []) := by
  induction n with
  | zero => rfl
  | succ n ih =>
    have hcb : gs.TickTimerCallback = (gs, []) := by
      simp [ACSKGameState.TickTimerCallback, ACSKGameState.IsTimerActive, h]
    simp only [ACSKGameState.RunTicks, hcb, ih, List.append_nil]

/-- While more than `k` units remain on an active timer that is not paused, `k` callbacks
take exactly `k` units off the remaining time and dispatch nothing. -/
theorem RunTicks_counting (r : ECSKTimerState) (hr : r ≠ ECSKTimerState.None) (k : Nat) :
    ∀ (gs : ACSKGameState) (m : Int), gs.TimerState = r → gs.bTimerPaused = false →
      gs.TimeRemaining = m → (k : Int) < m →
      ACSKGameState.RunTicks k gs = ({ gs with TimeRemaining := m - k }, []) := by
  induction k with
  | zero =>
    intro gs m _ _ h3 _
    subst h3
    simp [ACSKGameState.RunTicks]
  | succ k ih =>
    intro gs m h1 h2 h3 hk
    have hk1 : (k : Int) + 1 < m := by exact_mod_cast hk
    have hcb : gs.TickTimerCallback = ({ gs with TimeRemaining := m - 1 }, []) := by
      have hA : gs.IsTimerActive = true := by
        simp [ACSKGameState.IsTimerActive, h1, hr]
      have hne1 : ¬ m = -1 := by omega
      have hne2 : ¬ m - 1 = 0 := by omega
      simp [ACSKGameState.TickTimerCallback, ACSKGameState.TickTimer, hA, h2, h3, hne1, hne2]
    have hrec := ih { gs with TimeRemaining := m - 1 } (m - 1) h1 h2 rfl (by omega)
    simp only [ACSKGameState.RunTicks, hcb, hrec, List.append_nil]
    have harith : m - 1 - (k : Int) = m - ((k + 1 : Nat) : Int) := by
      push_cast
      ring
    rw [harith]

/-- Once at least as many callbacks have run as units remained, the timer has been
deactivated and the finished handler has dispatched its continuation exactly once. -/
theorem RunTicks_finish (r : ECSKTimerState) (hr : r ≠ ECSKTimerState.None) (n : Nat) :
    ∀ (gs : ACSKGameState) (m : Int), gs.TimerState = r → gs.bTimerPaused = false →
      gs.TimeRemaining = m → 1 ≤ m → m ≤ (n : Int) →
      ACSKGameState.RunTicks n gs = (gs.DeactivateTickTimer, [r]) := by
  induction n with
  | zero =>
    intro gs m _ _ _ h4 h5
    exact absurd (le_trans h4 h5) (by norm_num)
  | succ n ih =>
    intro gs m h1 h2 h3 h4 h5
    have hA : gs.IsTimerActive = true := by
      simp [ACSKGameState.IsTimerActive, h1, hr]
    have hne1 : ¬ m = -1 := by omega
    by_cases hlast : m = 1
    · have hcb : gs.TickTimerCallback = (gs.DeactivateTickTimer, [r]) := by
        simp [ACSKGameState.TickTimerCallback, ACSKGameState.TickTimer,
          ACSKGameState.HandleTickTimerFinished, ACSKGameState.DeactivateTickTimer, hA, h1, h2,
          h3, hlast]
      have hrest := RunTicks_inactive n gs.DeactivateTickTimer rfl
      simp only [ACSKGameState.RunTicks, hcb, hrest, List.append_nil]
    · have hne2 : ¬ m - 1 = 0 := by omega
      have hcb : gs.TickTimerCallback = ({ gs with TimeRemaining := m - 1 }, []) := by
        simp [ACSKGameState.TickTimerCallback, ACSKGameState.TickTimer, hA, h2, h3, hne1, hne2]
      have hn : m - 1 ≤ (n : Int) := by
        have : m ≤ (n : Int) + 1 := by exact_mod_cast h5
        omega
      have hrec := ih { gs with TimeRemaining := m - 1 } (m - 1) h1 h2 rfl (by omega) hn
      simp only [ACSKGameState.RunTicks, hcb, hrec, List.nil_append]
      rfl

/-- C12: timer countdown. For every timer reason other than `None` and every duration
`d >= 1`, after activating the timer the first `k < d` ticks leave the remaining time at
`d - k` (each tick takes exactly one off) with the timer still active and nothing dispatched;
from the `d`-th tick on the remaining time is zero, the finished handler has run exactly once
(one continuation, for this reason) and `TimerState` is `None`, so `IsTimerActive` is
`false`. -/
theorem Timer_countdown (gs : ACSKGameState) (reason : ECSKTimerState) (d : Int)
    (hReason : reason ≠ ECSKTimerState.None) (hd : 1 ≤ d) :
    (∀ k : Nat, (k : Int) < d →
      (ACSKGameState.RunTicks k (gs.ActivateTickTimer reason d)).1.TimeRemaining = d - k ∧
      (ACSKGameState.RunTicks k (gs.ActivateTickTimer reason d)).1.TimerState = reason ∧
      (ACSKGameState.RunTicks k (gs.ActivateTickTimer reason d)).1.IsTimerActive = true ∧
      (ACSKGameState.RunTicks k (gs.ActivateTickTimer reason d)).2 = []) ∧
    (∀ n : Nat, d ≤ (n : Int) →
      (ACSKGameState.RunTicks n (gs.ActivateTickTimer reason d)).1.TimeRemaining = 0 ∧
      (ACSKGameState.RunTicks n (gs.ActivateTickTimer reason d)).1.TimerState =
        ECSKTimerState.None ∧
      (ACSKGameState.RunTicks n (gs.ActivateTickTimer reason d)).1.IsTimerActive = false ∧
      (ACSKGameState.RunTicks n (gs.ActivateTickTimer reason d)).2 = [reason]) := by
  have h1 : (gs.ActivateTickTimer reason d).TimerState = reason := by
    simp [ACSKGameState.ActivateTickTimer, hReason]
  have h2 : (gs.ActivateTickTimer reason d).bTimerPaused = false := by
    simp [ACSKGameState.ActivateTickTimer, ACSKGameState.DeactivateTickTimer, hReason]
  have h3 : (gs.ActivateTickTimer reason d).TimeRemaining = d := by
    simp [ACSKGameState.ActivateTickTimer, hReason]
  constructor
  · intro k hk
    rw [RunTicks_counting reason hReason k _ d h1 h2 h3 hk]
    refine ⟨rfl, h1, ?_, rfl⟩
    simp [ACSKGameState.IsTimerActive, h1, hReason]
  · intro n hn
    rw [RunTicks_finish reason hReason n _ d h1 h2 h3 hd hn]
    exact ⟨rfl, rfl, rfl, rfl⟩

/-- Instance of C12: a quick-effect timer of duration 3 on the sample game state; two ticks
leave 1 unit and dispatch nothing, three ticks finish it once, and so do five. -/
theorem Timer_countdown_witness :
    ECSKTimerState.QuickEffect ≠ ECSKTimerState.None ∧ (1 : Int) ≤ 3 ∧
    (ACSKGameState.RunTicks 2
      (SampleGameState.ActivateTickTimer ECSKTimerState.QuickEffect 3)).1.TimeRemaining = 1 ∧
    (ACSKGameState.RunTicks 2
      (SampleGameState.ActivateTickTimer ECSKTimerState.QuickEffect 3)).2 = [] ∧
    (ACSKGameState.RunTicks 3
      (SampleGameState.ActivateTickTimer ECSKTimerState.QuickEffect 3)).1.TimerState =
      ECSKTimerState.None ∧
    (ACSKGameState.RunTicks 3
      (SampleGameState.ActivateTickTimer ECSKTimerState.QuickEffect 3)).2 =
      [ECSKTimerState.QuickEffect] ∧
    (ACSKGameState.RunTicks 5
      (SampleGameState.ActivateTickTimer ECSKTimerState.QuickEffect 3)).2 =
      [ECSKTimerState.QuickEffect] :=
  have h := Timer_countdown SampleGameState ECSKTimerState.QuickEffect 3 (by decide)
    (by decide)
  ⟨by decide, by decide, (h.1 2 (by decide)).1, (h.1 2 (by decide)).2.2.2,
    (h.2 3 (by decide)).2.1, (h.2 3 (by decide)).2.2.2, (h.2 5 (by decide)).2.2.2⟩

end Conquest
